import Mathlib

/-!
Verification development for the multi-agent banking-assistant core
(orchestrator, intent classifier, specialist agents).

Modelling conventions, applied uniformly:

* Python strings are Lean `String`s; the Python primitives used by the code
  (`str.lower`, `str.strip`, `str.startswith`, `in`, `str.split`, slicing)
  are re-implemented below as executable list-of-character functions
  (`pyLower`, `pyStrip`, ...) so that proofs and concrete evaluation both go
  through plain structural recursion.  They agree with CPython on ASCII text;
  exotic Unicode whitespace/case differences are outside every claim here.
* Python numbers (ints and floats) are modelled as `Rat`.  No claim below
  depends on floating-point rounding behaviour; `pyRound` models Python's
  banker's rounding on `Rat`.
* Python dicts that the code treats as open JSON objects are association
  lists `List (String × JVal)` with Python's ordered-dict update semantics
  (`dictGet` / `dictSet`).
* The two external collaborators named by the design (the Context Provider
  and the Text Completion Service) enter as function parameters:
  `get_user_context : String → Context` and `llm : List Msg → Rat →
  LLMResponse`.  `LLMResponse.error` is the error variant that
  `BaseAgent.call_llm` produces when the underlying transport raises.
  `json.loads` enters as
  a parameter `jsonParse : String → Except String (List (String × JVal))`
  (the `Except.error` payload standing for `str(e)` of the raised
  exception, which also covers a top-level JSON value that is not an
  object, since attribute access on it raises inside the same `try`).
* Prompt text assembled only to be handed to the LLM oracle is built with
  simple `toString`-based rendering standing in for Python's numeric format
  specs and `json.dumps`; no theorem depends on the rendered text.
-/

/-- Python `str.lower` on one character (ASCII range), which is exactly
core's `Char.toLower`. -/
def pyCharLower (c : Char) : Char := c.toLower

/-- Python `str.lower` (ASCII-faithful). -/
def pyLower (s : String) : String := ⟨s.data.map pyCharLower⟩

/-- Python `str.strip`: drop leading and trailing whitespace. -/
def pyStrip (s : String) : String :=
  ⟨((s.data.dropWhile Char.isWhitespace).reverse.dropWhile Char.isWhitespace).reverse⟩

/-- Python `a.startswith b`. -/
def pyStartsWith (s pre : String) : Bool := pre.data.isPrefixOf s.data

/-- Membership of `needle` as a contiguous run inside `hay` (list form). -/
def listHasRun [BEq α] (needle : List α) : List α → Bool
  | [] => needle.isEmpty
  | c :: cs => needle.isPrefixOf (c :: cs) || listHasRun needle cs

/-- Python `needle in hay` for strings (substring containment). -/
def pyIn (needle hay : String) : Bool := listHasRun needle.data hay.data

/-- Python `s[:n]` character slicing. -/
def pyTake (n : Nat) (s : String) : String := ⟨s.data.take n⟩

/-- Helper for `pySplitWS`: accumulate the current word (reversed). -/
def pySplitWSAux : List Char → List Char → List String
  | [], acc => if acc.isEmpty then [] else [⟨acc.reverse⟩]
  | c :: cs, acc =>
    if c.isWhitespace then
      if acc.isEmpty then pySplitWSAux cs [] else ⟨acc.reverse⟩ :: pySplitWSAux cs []
    else pySplitWSAux cs (c :: acc)

/-- Python `str.split()` with no argument: split on whitespace runs,
discarding empty pieces. -/
def pySplitWS (s : String) : List String := pySplitWSAux s.data []

/-- Fuel-driven worker for `pySplitOn` (fuel keeps the recursion structural;
`fuel = length + 1` always suffices). -/
def pySplitOnAux (sep : List Char) : Nat → List Char → List Char → List (List Char)
  | 0, rest, acc => [acc.reverse ++ rest]
  | _ + 1, [], acc => [acc.reverse]
  | fuel + 1, c :: cs, acc =>
    if sep.isPrefixOf (c :: cs) then
      acc.reverse :: pySplitOnAux sep fuel ((c :: cs).drop sep.length) []
    else pySplitOnAux sep fuel cs (c :: acc)

/-- Python `s.split(sep)` for a nonempty separator: split on every
non-overlapping leftmost occurrence. -/
def pySplitOn (s sep : String) : List String :=
  if sep.data.isEmpty then [s]
  else (pySplitOnAux sep.data (s.data.length + 1) s.data []).map (fun l => ⟨l⟩)

/-- Python `round(q * 10^d) / 10^d` with round-half-to-even, on rationals. -/
def pyRound (d : Nat) (q : Rat) : Rat :=
  let s : Rat := q * (10 : Rat) ^ d
  let n : Int := ⌊s⌋
  let r : Rat := s - n
  let rounded : Int :=
    if r < 1 / 2 then n
    else if r > 1 / 2 then n + 1
    else if n % 2 = 0 then n else n + 1
  (rounded : Rat) / (10 : Rat) ^ d

/-- Crude decimal rendering of a rational, standing in for Python's numeric
format specs inside prompt strings (the rendered text only feeds the LLM
oracle). -/
def fmtNum (q : Rat) : String := toString q

/-- JSON-like values, modelling the open dict/JSON payloads the Python code
passes around in `metadata`. -/
inductive JVal where
  | str (s : String)
  | num (q : Rat)
  | bool (b : Bool)
  | null
  | arr (xs : List JVal)
  | obj (fields : List (String × JVal))

/-- Python dict lookup `d.get(k)` on an ordered association list. -/
def dictGet (d : List (String × JVal)) (k : String) : Option JVal :=
  (d.find? (fun p => p.1 = k)).map (fun p => p.2)

/-- Python dict assignment `d[k] = v`: update in place if the key exists,
append otherwise (insertion-ordered dict semantics). -/
def dictSet (d : List (String × JVal)) (k : String) (v : JVal) : List (String × JVal) :=
  if d.any (fun p => p.1 = k) then
    d.map (fun p => if p.1 = k then (k, v) else p)
  else d ++ [(k, v)]

/-- Membership of a JSON value in a list of strings, as Python's
`value in list_of_strings` decides it (false for non-strings). -/
def jvalInStrList (v : JVal) (l : List String) : Bool :=
  match v with
  | .str s => l.contains s
  | _ => false

/-- One chat message, Python `{"role": r, "content": c}`. -/
structure Msg where
  role : String
  content : String

/-- The observable result of `BaseAgent.call_llm`: a text completion or the
error variant its `except` clause produces.  (Its third, tool-call variant
only arises when a caller passes `tools`, which no call site in this
repository does, so it is omitted; this matches the two-variant Text
Completion Service interface of the design.) -/
inductive LLMResponse where
  | text (content : String)
  | error (content : String)

/-- The Text Completion Service as seen through `BaseAgent.call_llm`
(messages and sampling temperature in, text-or-error result out). -/
def LLM : Type := List Msg → Rat → LLMResponse

/-- The dict returned by `BaseAgent.format_response`. -/
structure AgentResponse where
  agent : String
  role : String
  content : String
  metadata : List (String × JVal)

/-- `BaseAgent.format_response`. -/
def format_response (name role content : String)
    (metadata : List (String × JVal)) : AgentResponse :=
  ⟨name, role, content, metadata⟩

/-- One stored conversation turn (`agents/orchestrator.py`, the dict
appended to `self.conversations[session_id]`). -/
structure Turn where
  user_query : String
  bot_response : String
  agent_used : String
  intent : JVal

/-- Postal address inside a profile. -/
structure Address where
  city : Option String := none
  state : Option String := none

/-- The `profile` part of the user context. -/
structure Profile where
  phone : Option String := none
  full_name : String := ""
  age : Option Nat := none
  email : Option String := none
  address : Option Address := none
  date_of_birth : Option String := none

/-- One bank account inside the user context. -/
structure Account where
  name : String := ""
  account_number : Option String := none
  type_ : String := ""
  subtype : String := ""
  balance : Rat := 0
  available : Rat := 0
  is_primary : Bool := false

/-- One recent transaction inside the user context. -/
structure Transaction where
  name : String := ""
  amount : Rat := 0
  category : Option String := none

/-- One month of the spending summary (most recent first). -/
structure SpendRow where
  month : String := ""
  expenses : Rat := 0
  income : Rat := 0

/-- The `summary` part of the user context (missing keys read as 0). -/
structure Summary where
  total_balance : Rat := 0
  total_available : Rat := 0

/-- The derived `metrics` part of the user context (missing keys read as 0). -/
structure Metrics where
  monthly_income : Rat := 0
  monthly_obligations : Rat := 0
  dti_ratio : Rat := 0
  credit_utilization : Rat := 0

/-- The `crm` part of the user context; the row payloads are opaque here
(they are only ever rendered into prompt text). -/
structure CRMData where
  service_requests : List String := []
  interactions : List String := []
  offers : List String := []
  flags : List String := []
  crm_summary : List String := []

/-- The Context Provider's snapshot.  `error = some e` models the provider
returning a dict containing an `"error"` key; `profile = none` models a
missing or empty profile. -/
structure Context where
  error : Option String := none
  profile : Option Profile := none
  accounts : List Account := []
  recent_transactions : List Transaction := []
  income : List String := []
  liabilities : List String := []
  spending_summary : List SpendRow := []
  summary : Summary := {}
  metrics : Metrics := {}
  crm : CRMData := {}

/-- Read `context.get("profile", {}).get("full_name", "")`. -/
def ctxFullName (c : Context) : String :=
  match c.profile with
  | some p => p.full_name
  | none => ""

/-- Python `full_name.split()[0] if full_name else ''` (first whitespace
token of the full name; Python raises on an all-whitespace name, a case no
claim touches, modelled as `""`). -/
def firstNameOf (full_name : String) : String :=
  if full_name = "" then "" else (pySplitWS full_name).headD ""

/-- The fixed ender phrase set (`Orchestrator._is_conversation_ender`). -/
def enders : List String :=
  ["no", "nope", "nah", "no thanks", "no thank you",
   "nothing", "nothing else", "that's all", "that's it",
   "i'm good", "im good", "all good", "we're good",
   "thanks", "thank you", "bye", "goodbye"]

/-- The fixed ender prefix set (`Orchestrator._is_conversation_ender`). -/
def enderStarts : List String :=
  ["no,", "nope,", "nothing,", "that's all", "thanks,"]

/-- `Orchestrator._is_conversation_ender`. -/
def is_conversation_ender (query : String) : Bool :=
  let query_lower := pyStrip (pyLower query)
  if enders.contains query_lower then true
  else enderStarts.any (fun e => pyStartsWith query_lower e)

/-- The fixed continuation phrase set (`Orchestrator._is_followup_query`). -/
def followup_patterns : List String :=
  ["yes", "yeah", "yep", "sure", "ok", "okay",
   "why", "how", "what", "when", "where",
   "tell me", "explain", "details", "more",
   "go ahead", "continue", "and", "also",
   "please", "can you"]

/-- `Orchestrator._is_followup_query`. -/
def is_followup_query (query : String) (history : List Turn) : Bool :=
  if history.isEmpty then false
  else
    let query_lower := pyStrip (pyLower query)
    if is_conversation_ender query_lower then false
    else if (pySplitWS query).length ≤ 4 then
      followup_patterns.any (fun p => pyStartsWith query_lower p || query_lower = p)
    else false

/-- `Orchestrator._get_intent_for_agent` (fixed agent-name → intent table,
anything unmapped → GENERAL). -/
def get_intent_for_agent (agent_name : String) : String :=
  if agent_name = "Account Specialist" then "ACCOUNT_QUERY"
  else if agent_name = "Transaction Analyst" then "TRANSACTION_QUERY"
  else if agent_name = "Financial Advisor" then "FINANCIAL_ADVICE"
  else if agent_name = "Analytics Specialist" then "ANALYTICS"
  else if agent_name = "CRM Specialist" then "CRM_QUERY"
  else "GENERAL"

/-- `Orchestrator._handle_general`: in-process handling of GENERAL turns. -/
def handle_general (query : String) (context : Context) (history : List Turn) : String :=
  let query_lower := pyLower query
  let full_name := ctxFullName context
  let first_name :=
    if full_name ≠ "" ∧ full_name ≠ "Valued Customer" then (pySplitWS full_name).headD ""
    else ""
  let greeting_name := if first_name ≠ "" then " " ++ first_name else ""
  if is_conversation_ender query_lower then
    "Great" ++ greeting_name ++ "! If you need anything else, just let me know. Have a good day!"
  else if !history.isEmpty ∧
      ["yes", "sure", "ok", "yeah"].any (fun w => pyIn w query_lower) ∧
      (let last_response := pyLower ((history.getLast?.map Turn.bot_response).getD "")
       pyIn "help" last_response || pyIn "assist" last_response) then
    "I can help you with account balances, recent transactions, spending analysis, " ++
      "financial advice, and your personal profile. What would you like to know" ++
      greeting_name ++ "?"
  else if ["hello", "hi", "hey", "good morning", "good afternoon"].any
      (fun w => pyIn w query_lower) then
    (if first_name ≠ "" then "Hello" ++ greeting_name ++ "!" else "Hello!") ++
      " How can I assist you today?"
  else if ["help", "what can you do", "capabilities", "how can you help"].any
      (fun w => pyIn w query_lower) then
    "I can help you" ++ greeting_name ++ " with:\n" ++
      "• Account balances and status\n" ++
      "• Transaction history and spending\n" ++
      "• Financial advice and loan eligibility\n" ++
      "• Spending analytics and trends\n" ++
      "• Your personal profile and information\n\n" ++
      "What would you like to know?"
  else if ["thank", "thanks", "appreciate"].any (fun w => pyIn w query_lower) then
    "You're welcome" ++ greeting_name ++ "! Let me know if you need anything else."
  else
    "I'm here to help with your finances" ++ greeting_name ++
      ". Ask me about your accounts, transactions, spending, financial advice, " ++
      "or your profile information."

/-- The six-value intent enumeration (`RouterAgent.process`). -/
def valid_intents : List String :=
  ["ACCOUNT_QUERY", "TRANSACTION_QUERY", "FINANCIAL_ADVICE", "ANALYTICS",
   "CRM_QUERY", "GENERAL"]

/-- The intent-validation step of `RouterAgent.process`: an intent outside
the fixed six-value enumeration (or missing, or not a string) is
overwritten with GENERAL / 0.5 / an explanatory reasoning, via ordered-dict
assignment. -/
def validateClassification (classification : List (String × JVal)) :
    List (String × JVal) :=
  if jvalInStrList ((dictGet classification "intent").getD .null) valid_intents then
    classification
  else
    dictSet
      (dictSet (dictSet classification "intent" (.str "GENERAL"))
        "confidence" (.num (1 / 2)))
      "reasoning" (.str "Invalid intent detected, defaulting to GENERAL")

/-- Markdown code-fence stripping in `RouterAgent.process`
(`content.split("```json")[1].split("```")[0].strip()` and its plain-fence
variant). -/
def stripFences (content : String) : String :=
  if pyStartsWith content "```json" then
    pyStrip ((pySplitOn ((pySplitOn content "```json").getD 1 "") "```").headD "")
  else if pyStartsWith content "```" then
    pyStrip ((pySplitOn ((pySplitOn content "```").getD 1 "") "```").headD "")
  else content

/-- Abridged stand-in for the Router's fixed instruction prompt (inert text
handed to the LLM oracle). -/
def routerInstructions : String :=
  "You are an advanced intent classification system for a banking assistant."

/-- The compact context summary `RouterAgent.process` renders into its user
message. -/
def routerContextInfo (context : Context) : String :=
  "\nUser Context:\n- Has Income Data: " ++ toString (decide (context.income.length > 0)) ++
    "\n- Has Debt Data: " ++ toString (decide (context.liabilities.length > 0)) ++
    "\n- Has Spending History: " ++
    toString (decide (context.spending_summary.length > 0)) ++
    "\n- Number of Accounts: " ++ toString context.accounts.length ++
    "\n- Number of Recent Transactions: " ++ toString context.recent_transactions.length ++
    "\n"

/-- The two chat messages `RouterAgent.process` sends (system instructions
plus context summary and query). -/
def routerMessages (context : Context) (query : String) : List Msg :=
  [⟨"system", routerInstructions⟩,
   ⟨"user", routerContextInfo context ++ "\n\nClassify this query: " ++ query⟩]

/-- The parse-failure fallback metadata of `RouterAgent.process` (its
`except` branch), with `e` standing for `str(e)`. -/
def routerParseFailMeta (e : String) : List (String × JVal) :=
  [("intent", .str "GENERAL"), ("confidence", .num (1 / 2)),
   ("entities", .obj []), ("reasoning", .str ("Failed to parse response: " ++ e))]

/-- `RouterAgent.process`, parameterized by the Text Completion Service and
by `json.loads`. -/
def routerProcess (llm : LLM)
    (jsonParse : String → Except String (List (String × JVal)))
    (context : Context) (query : String) : AgentResponse :=
  match llm (routerMessages context query) (1 / 5) with
  | .error _ =>
    format_response "Router" "Intent Classifier"
      "I'm having trouble understanding your question. Could you rephrase it?"
      [("intent", .str "GENERAL"), ("confidence", .num (3 / 10)),
       ("entities", .obj []),
       ("reasoning", .str "Error in classification, defaulting to GENERAL")]
  | .text raw =>
    match jsonParse (stripFences (pyStrip raw)) with
    | .error e =>
      format_response "Router" "Intent Classifier" "Intent classified"
        (routerParseFailMeta e)
    | .ok classification =>
      format_response "Router" "Intent Classifier" "Intent classified"
        (validateClassification classification)

/-- Render the last two history turns into the shared "RECENT CONVERSATION"
recap block (each bot response truncated at `truncAt` characters). -/
def conversationRecap (truncAt : Nat) (conversation_history : List Turn) : String :=
  if conversation_history.isEmpty then ""
  else
    let recent := conversation_history.drop (conversation_history.length - 2)
    "RECENT CONVERSATION:\n" ++
      String.join (recent.map (fun e =>
        "User: " ++ e.user_query ++ "\nAssistant: " ++
          pyTake truncAt e.bot_response ++ "...\n")) ++ "\n"

/-- Crude rendering of one account dict for prompt text (stands in for
`json.dumps`). -/
def dumpAccount (a : Account) : String :=
  "name: " ++ a.name ++ ", account_number: " ++ a.account_number.getD "N/A" ++
    ", type: " ++ a.subtype ++ ", balance: $" ++ fmtNum a.balance ++
    ", available: $" ++ fmtNum a.available ++ ", is_primary: " ++ toString a.is_primary

/-- `CalculationTools.calculate_financial_health_score`. -/
def calculate_financial_health_score (dti_ratio credit_util income expenses : Rat) : Int :=
  let score : Int := 100
  let score :=
    if dti_ratio > 50 then score - 40
    else if dti_ratio > 43 then score - 30
    else if dti_ratio > 36 then score - 15
    else score
  let score :=
    if credit_util > 70 then score - 30
    else if credit_util > 50 then score - 20
    else if credit_util > 30 then score - 10
    else score
  let score :=
    if income > 0 then
      let savings_rate := ((income - expenses) / income) * 100
      if savings_rate < 0 then score - 20
      else if savings_rate < 10 then score - 15
      else if savings_rate > 20 then score + 10
      else score
    else score
  max 0 (min 100 score)

/-- `CalculationTools.calculate_mortgage_payment` (real arithmetic on `Rat`). -/
def calculate_mortgage_payment (loan_amount annual_rate : Rat) (years : Nat) : Rat :=
  if loan_amount ≤ 0 then 0
  else
    let monthly_rate := annual_rate / 100 / 12
    let num_payments := years * 12
    if monthly_rate = 0 then loan_amount / (num_payments : Rat)
    else
      pyRound 2 (loan_amount * (monthly_rate * (1 + monthly_rate) ^ num_payments) /
        ((1 + monthly_rate) ^ num_payments - 1))

/-- The dict returned by `CalculationTools.calculate_max_home_price`. -/
structure HomeCalc where
  max_home_price : Rat := 0
  max_loan_amount : Rat := 0
  down_payment : Rat := 0
  monthly_payment : Rat := 0
  monthly_pi : Rat := 0
  monthly_tax : Rat := 0
  monthly_insurance : Rat := 0
  affordable : Bool := false
  new_dti : Rat := 0
  reason : String := ""

/-- `CalculationTools.calculate_max_home_price` (real arithmetic on `Rat`;
all arguments are passed positionally, the Python defaults written out at
the call site). -/
def calculate_max_home_price (monthly_income current_obligations down_payment
    max_dti annual_rate property_tax_rate insurance_rate : Rat) : HomeCalc :=
  let max_monthly_payment := monthly_income * (max_dti / 100) - current_obligations
  if max_monthly_payment ≤ 0 then
    { max_home_price := 0, max_loan_amount := 0, monthly_payment := 0,
      affordable := false, reason := "Current obligations exceed DTI limit" }
  else
    let max_pi_payment := max_monthly_payment * (3 / 4)
    let monthly_rate := annual_rate / 100 / 12
    let num_payments : Nat := 30 * 12
    let max_loan :=
      if monthly_rate = 0 then max_pi_payment * (num_payments : Rat)
      else
        max_pi_payment * ((1 + monthly_rate) ^ num_payments - 1) /
          (monthly_rate * (1 + monthly_rate) ^ num_payments)
    let max_home_price := max_loan + down_payment
    let pi_payment := calculate_mortgage_payment max_loan annual_rate 30
    let annual_tax := max_home_price * (property_tax_rate / 100)
    let annual_insurance := max_home_price * (insurance_rate / 100)
    let monthly_tax := annual_tax / 12
    let monthly_insurance := annual_insurance / 12
    let total_monthly := pi_payment + monthly_tax + monthly_insurance
    { max_home_price := pyRound 2 max_home_price,
      max_loan_amount := pyRound 2 max_loan,
      down_payment := pyRound 2 down_payment,
      monthly_payment := pyRound 2 total_monthly,
      monthly_pi := pyRound 2 pi_payment,
      monthly_tax := pyRound 2 monthly_tax,
      monthly_insurance := pyRound 2 monthly_insurance,
      affordable := true,
      new_dti := pyRound 2 ((current_obligations + total_monthly) / monthly_income * 100) }

/-- `CalculationTools.calculate_auto_loan_payment`. -/
def calculate_auto_loan_payment (loan_amount annual_rate : Rat) (years : Nat) : Rat :=
  if loan_amount ≤ 0 then 0
  else
    let monthly_rate := annual_rate / 100 / 12
    let num_payments := years * 12
    if monthly_rate = 0 then loan_amount / (num_payments : Rat)
    else
      pyRound 2 (loan_amount * (monthly_rate * (1 + monthly_rate) ^ num_payments) /
        ((1 + monthly_rate) ^ num_payments - 1))

/-- The dict returned by `CalculationTools.calculate_max_auto_loan`. -/
structure AutoCalc where
  max_auto_price : Rat := 0
  max_loan_amount : Rat := 0
  down_payment : Rat := 0
  monthly_payment : Rat := 0
  loan_term_years : Nat := 0
  interest_rate : Rat := 0
  affordable : Bool := false
  new_dti : Rat := 0
  reason : String := ""

/-- `CalculationTools.calculate_max_auto_loan`. -/
def calculate_max_auto_loan (monthly_income current_obligations down_payment
    max_dti annual_rate : Rat) (years : Nat) : AutoCalc :=
  let max_monthly_payment := monthly_income * (max_dti / 100) - current_obligations
  if max_monthly_payment ≤ 0 then
    { max_auto_price := 0, max_loan_amount := 0, monthly_payment := 0,
      affordable := false, reason := "Current obligations exceed DTI limit" }
  else
    let monthly_rate := annual_rate / 100 / 12
    let num_payments := years * 12
    let max_loan :=
      if monthly_rate = 0 then max_monthly_payment * (num_payments : Rat)
      else
        max_monthly_payment * ((1 + monthly_rate) ^ num_payments - 1) /
          (monthly_rate * (1 + monthly_rate) ^ num_payments)
    let max_auto_price := max_loan + down_payment
    let actual_payment := calculate_auto_loan_payment max_loan annual_rate years
    { max_auto_price := pyRound 2 max_auto_price,
      max_loan_amount := pyRound 2 max_loan,
      down_payment := pyRound 2 down_payment,
      monthly_payment := pyRound 2 actual_payment,
      loan_term_years := years,
      interest_rate := annual_rate,
      affordable := true,
      new_dti := pyRound 2 ((current_obligations + actual_payment) / monthly_income * 100) }

/-- The dict returned by the two assessment helpers of `CalculationTools`. -/
structure Assessment where
  rating : String
  description : String
  impact : String
  color : String

/-- `CalculationTools.get_dti_assessment` (texts abridged; only `rating`
flows into agent metadata). -/
def get_dti_assessment (dti_ratio : Rat) : Assessment :=
  if dti_ratio < 20 then ⟨"Excellent", "Your debt level is very manageable.", "", "green"⟩
  else if dti_ratio < 36 then ⟨"Good", "Your debt level is within healthy limits.", "", "green"⟩
  else if dti_ratio < 43 then ⟨"Fair", "Your debt level is approaching the upper limit.", "", "yellow"⟩
  else if dti_ratio < 50 then ⟨"High", "Your debt level is concerning.", "", "orange"⟩
  else ⟨"Critical", "Your debt level is very high.", "", "red"⟩

/-- `CalculationTools.get_credit_utilization_assessment` (texts abridged). -/
def get_credit_utilization_assessment (util_ratio : Rat) : Assessment :=
  if util_ratio < 10 then ⟨"Excellent", "Your credit utilization is very low.", "", "green"⟩
  else if util_ratio < 30 then ⟨"Good", "Your credit utilization is within range.", "", "green"⟩
  else if util_ratio < 50 then ⟨"Fair", "Your credit utilization is higher than recommended.", "", "yellow"⟩
  else if util_ratio < 75 then ⟨"High", "Your credit utilization is quite high.", "", "orange"⟩
  else ⟨"Critical", "Your credit utilization is dangerously high.", "", "red"⟩

/-- One suggestion dict of `CalculationTools.suggest_improvements`. -/
structure Suggestion where
  category : String
  priority : String
  current : String
  target : String
  action : String
  impact : String

/-- `CalculationTools.suggest_improvements`, at the Financial Advisor's only
call site (which always merges in an `avg_monthly_expenses` key, so the
`in metrics` membership test there is always true). -/
def suggest_improvements (metrics : Metrics) (avg_monthly_expenses : Rat)
    (target_dti : Rat) : List Suggestion :=
  let dti_ratio := metrics.dti_ratio
  let credit_util := metrics.credit_utilization
  let monthly_income := metrics.monthly_income
  let monthly_obligations := metrics.monthly_obligations
  let s1 : List Suggestion :=
    if dti_ratio > target_dti ∧ monthly_income > 0 then
      let target_obligations := monthly_income * (target_dti / 100)
      let needed_reduction := monthly_obligations - target_obligations
      if needed_reduction > 0 then
        [⟨"Debt-to-Income Ratio", "High", fmtNum dti_ratio ++ "%", fmtNum target_dti ++ "%",
          "Reduce monthly debt payments by $" ++ fmtNum needed_reduction,
          "This will bring your DTI to the target range."⟩]
      else []
    else []
  let s2 : List Suggestion :=
    if credit_util > 30 then
      [⟨"Credit Utilization", if credit_util > 50 then "High" else "Medium",
        fmtNum credit_util ++ "%", "Below 30%",
        "Pay down credit card balances to below 30% of total limits",
        "This will improve your credit score."⟩]
    else []
  let s3 : List Suggestion :=
    if monthly_income > 0 ∧ dti_ratio > 36 then
      let needed_income := monthly_obligations / (target_dti / 100)
      let income_increase := needed_income - monthly_income
      if income_increase > 0 then
        [⟨"Income", "Medium", "$" ++ fmtNum monthly_income ++ "/month",
          "$" ++ fmtNum needed_income ++ "/month",
          "Increase monthly income by $" ++ fmtNum income_increase,
          "Higher income improves your debt-to-income ratio."⟩]
      else []
    else []
  let s4 : List Suggestion :=
    if monthly_income > 0 then
      let savings_rate :=
        ((monthly_income - monthly_obligations - avg_monthly_expenses) / monthly_income) * 100
      if savings_rate < 10 then
        [⟨"Savings Rate", "Medium", fmtNum savings_rate ++ "%", "At least 10-15%",
          "Reduce discretionary spending to save at least 10% of income",
          "Building emergency savings prevents future debt."⟩]
      else []
    else []
  s1 ++ s2 ++ s3 ++ s4

/-- Category accumulation shared by the Transaction and Analytics agents
(`defaultdict` over positive-amount transactions, keyed in first-occurrence
order; value is accumulated amount and count). -/
def categoryFold (transactions : List Transaction) : List (String × (Rat × Nat)) :=
  transactions.foldl (fun acc t =>
    if t.amount > 0 then
      let cat := t.category.getD "Uncategorized"
      if acc.any (fun p => p.1 = cat) then
        acc.map (fun p => if p.1 = cat then (p.1, (p.2.1 + t.amount, p.2.2 + 1)) else p)
      else acc ++ [(cat, (t.amount, 1))]
    else acc) []

/-- Python `sorted(pairs, key=amount, reverse=True)` on category pairs
(stable descending sort). -/
def sortByAmountDesc (l : List (String × (Rat × Nat))) : List (String × (Rat × Nat)) :=
  l.mergeSort (fun a b => decide (a.2.1 ≥ b.2.1))

/-- Abridged stand-in for the Account Specialist's fixed instruction
prompt. -/
def accountInstructions : String :=
  "You are an account specialist for a VOICE-based banking assistant."

/-- `AccountAgent.process`, parameterized by the Text Completion Service. -/
def accountProcess (llm : LLM) (context : Context) (query : String)
    (conversation_history : List Turn) : AgentResponse :=
  let user_name := ctxFullName context
  let first_name := firstNameOf user_name
  let accounts := context.accounts
  let summary := context.summary
  let recent_transactions := context.recent_transactions
  if accounts.isEmpty then
    format_response "Account Specialist" "Account Information Expert"
      ((if first_name ≠ "" then "Hi " ++ first_name ++ "! " else "") ++
        "I don't see any connected accounts. You'll need to link your bank first.")
      [("error", .str "no_accounts")]
  else
    let total_balance := summary.total_balance
    let total_available := summary.total_available
    let pending_amount := total_balance - total_available
    let checking_accounts := accounts.filter (fun a => pyIn "checking" (pyLower a.subtype))
    let warnings := (checking_accounts.filter (fun a => a.available < 200)).map
      (fun a => a.name ++ " is low at $" ++ fmtNum a.available)
    let conversation_context := conversationRecap 100 conversation_history
    let data_summary :=
      "\n" ++ conversation_context ++ "\n\nCUSTOMER PROFILE:\nName: " ++
        (if user_name ≠ "" then user_name else "Not provided") ++
        "\nFirst Name: " ++ (if first_name ≠ "" then first_name else "Not provided") ++
        "\n\nACCOUNT INFO:\nTotal Balance: $" ++ fmtNum total_balance ++
        "\nAvailable: $" ++ fmtNum total_available ++
        "\nPending: $" ++ fmtNum pending_amount ++
        "\n\nAccounts (" ++ toString accounts.length ++ " total):\n" ++
        String.join (accounts.map (fun a => dumpAccount a ++ "\n")) ++
        (if !warnings.isEmpty then
          "⚠️ LOW BALANCE WARNINGS: " ++ String.intercalate ", " warnings
         else "All accounts healthy") ++
        "\n\nRecent Activity: " ++ toString recent_transactions.length ++
        " transactions\n\nCUSTOMER QUESTION: " ++ query ++
        "\n\nGive a SHORT, DIRECT answer. Use their first name \"" ++ first_name ++
        "\" naturally if appropriate."
    let messages : List Msg := [⟨"system", accountInstructions⟩, ⟨"user", data_summary⟩]
    match llm messages (1 / 2) with
    | .error _ =>
      format_response "Account Specialist" "Account Information Expert"
        ((if first_name ≠ "" then "Hi " ++ first_name ++ "! " else "") ++
          "I can't access your accounts right now. Give me a moment and try again.")
        [("error", .str "llm_error")]
    | .text content =>
      format_response "Account Specialist" "Account Information Expert" content
        [("accounts_analyzed", .num accounts.length),
         ("total_balance", .num total_balance),
         ("warnings", .arr (warnings.map .str)),
         ("user_name", .str user_name),
         ("user_age", match (context.profile.map Profile.age).join with
                      | some a => .num a
                      | none => .null)]

/-- Abridged stand-in for the Transaction Analyst's fixed instruction
prompt. -/
def transactionInstructions : String :=
  "You are a transaction analyst for a VOICE-based banking assistant."

/-- `TransactionAgent.process`, parameterized by the Text Completion
Service. -/
def transactionProcess (llm : LLM) (context : Context) (query : String)
    (conversation_history : List Turn) : AgentResponse :=
  let transactions := context.recent_transactions
  let spending := context.spending_summary
  if transactions.isEmpty then
    format_response "Transaction Analyst" "Transaction & Spending Expert"
      "I don't see any recent transactions yet. They might still be syncing from your bank."
      [("error", .str "no_transactions")]
  else
    let total_spent := ((transactions.filter (fun t => t.amount > 0)).map
      Transaction.amount).sum
    let total_income := ((transactions.filter (fun t => t.amount < 0)).map
      (fun t => |t.amount|)).sum
    let by_category := categoryFold transactions
    let top_categories := (sortByAmountDesc by_category).take 3
    let avg_transaction := (transactions.map (fun t => |t.amount|)).sum /
      (transactions.length : Rat)
    let unusual := ((transactions.filter
        (fun t => t.amount > 0 ∧ t.amount > avg_transaction * 2)).mergeSort
        (fun a b => decide (a.amount ≥ b.amount))).take 2
    let mom_change : Option (Rat × Rat × Rat) :=
      if spending.length ≥ 2 then
        match spending with
        | latest :: previous :: _ =>
          let expense_change := latest.expenses - previous.expenses
          let expense_pct :=
            if previous.expenses > 0 then expense_change / previous.expenses * 100 else 0
          some (latest.expenses, previous.expenses, expense_pct)
        | _ => none
      else none
    let query_lower := pyLower query
    let wants_details := ["why", "explain", "detail", "breakdown", "more",
      "tell me more"].any (fun w => pyIn w query_lower)
    let conversation_context := conversationRecap 100 conversation_history
    let data_summary :=
      "\n" ++ conversation_context ++ "\n\nTRANSACTION DATA:\nTotal Spent (last 30 days): $" ++
        fmtNum total_spent ++ "\nTotal Income: $" ++ fmtNum total_income ++
        "\nTransaction Count: " ++ toString transactions.length ++
        "\n\nTop 3 Categories:\n" ++
        String.join (top_categories.map (fun p =>
          "category: " ++ p.1 ++ ", amount: $" ++ fmtNum p.2.1 ++
            ", count: " ++ toString p.2.2 ++ "\n")) ++
        "\nRecent Transactions (last 5):\n" ++
        String.join ((transactions.take 5).map (fun t => t.name ++ " " ++
          fmtNum t.amount ++ "\n")) ++
        (if !unusual.isEmpty then
          "Large/Unusual Transactions: " ++
            String.join (unusual.map (fun t => t.name ++ " " ++ fmtNum t.amount ++ " "))
         else "No unusual transactions") ++
        "\n" ++
        (match mom_change with
         | some (_, _, pct) => if pct > 5 then "Month Change: Up " ++ fmtNum |pct| ++ "%" else ""
         | none => "") ++
        "\n\nCUSTOMER QUESTION: " ++ query ++ "\n\n" ++
        (if wants_details then "Provide 2-3 detailed points (max 60 words)"
         else "Give a BRIEF answer (1-2 sentences, max 40 words)") ++ " Sound natural."
    let messages : List Msg := [⟨"system", transactionInstructions⟩, ⟨"user", data_summary⟩]
    match llm messages (3 / 5) with
    | .error _ =>
      format_response "Transaction Analyst" "Transaction & Spending Expert"
        "I'm having trouble pulling up your transactions. Try again in a moment."
        [("error", .str "llm_error")]
    | .text content =>
      format_response "Transaction Analyst" "Transaction & Spending Expert" content
        [("transactions_analyzed", .num transactions.length),
         ("total_spent", .num (pyRound 2 total_spent)),
         ("categories", .num by_category.length)]

/-- Abridged stand-in for the Financial Advisor's fixed instruction
prompt. -/
def advisorInstructions : String :=
  "You are a financial advisor for a voice-based banking assistant."

/-- `FinancialAdvisorAgent.process`, parameterized by the Text Completion
Service. -/
def advisorProcess (llm : LLM) (context : Context) (query : String)
    (conversation_history : List Turn) : AgentResponse :=
  let metrics := context.metrics
  let liabilities := context.liabilities
  let spending := context.spending_summary
  let accounts := context.accounts
  let monthly_income := metrics.monthly_income
  let monthly_obligations := metrics.monthly_obligations
  let dti_ratio := metrics.dti_ratio
  let credit_utilization := metrics.credit_utilization
  let avg_monthly_expenses :=
    if !spending.isEmpty then
      let recent_expenses := (spending.take 3).map SpendRow.expenses
      if !recent_expenses.isEmpty then
        recent_expenses.sum / (recent_expenses.length : Rat)
      else 0
    else 0
  let disposable_income := monthly_income - monthly_obligations - avg_monthly_expenses
  let health_score := calculate_financial_health_score dti_ratio credit_utilization
    monthly_income avg_monthly_expenses
  let dti_assessment := get_dti_assessment dti_ratio
  let _credit_assessment := get_credit_utilization_assessment credit_utilization
  let total_liquid_assets :=
    ((accounts.filter (fun a => ["depository"].contains a.type_)).map Account.balance).sum
  let mortgage_calc := calculate_max_home_price monthly_income monthly_obligations
    (total_liquid_assets * (2 / 10)) 43 7 (6 / 5) (1 / 2)
  let auto_calc := calculate_max_auto_loan monthly_income monthly_obligations
    (min (total_liquid_assets * (1 / 10)) 5000) 43 (13 / 2) 5
  let _suggestions := suggest_improvements metrics avg_monthly_expenses 36
  let savings_rate :=
    if monthly_income > 0 then
      (monthly_income - monthly_obligations - avg_monthly_expenses) / monthly_income * 100
    else 0
  let is_followup :=
    if !conversation_history.isEmpty then
      match conversation_history.getLast? with
      | some last_exchange =>
        if last_exchange.agent_used = "Financial Advisor" then
          let query_lower := pyLower query
          ["yes", "yeah", "yep", "sure", "ok", "okay",
           "why", "how", "explain", "details", "more",
           "tell me", "go ahead", "breakdown", "elaborate"].any
            (fun w => pyIn w query_lower)
        else false
      | none => false
    else false
  let conversation_context := conversationRecap 150 conversation_history
  let data_summary :=
    "\n" ++ conversation_context ++ "\n\nFINANCIAL PROFILE SUMMARY:\nMonthly Income: $" ++
      fmtNum monthly_income ++ "\nMonthly Debt Payments: $" ++ fmtNum monthly_obligations ++
      "\nAverage Monthly Expenses: $" ++ fmtNum avg_monthly_expenses ++
      "\nDisposable Income: $" ++ fmtNum disposable_income ++
      "\n\nDTI Ratio: " ++ fmtNum dti_ratio ++ "% (Target: <43%)" ++
      "\nCredit Utilization: " ++ fmtNum credit_utilization ++ "% (Target: <30%)" ++
      "\nFinancial Health Score: " ++ toString health_score ++ "/100" ++
      "\n\nLiquid Assets: $" ++ fmtNum total_liquid_assets ++
      "\nSavings Rate: " ++ fmtNum savings_rate ++ "%" ++
      "\n\nMax Affordable Home: $" ++ fmtNum mortgage_calc.max_home_price ++
      "\nMax Affordable Auto: $" ++ fmtNum auto_calc.max_auto_price ++
      "\n\nDebt Details: " ++
      (if !liabilities.isEmpty then String.intercalate ", " liabilities else "No debts") ++
      "\n\nRESPONSE STYLE REQUIRED:\n" ++
      (if is_followup then "DETAILED - User asked for more information"
       else "BRIEF - Give short answer + ask if they want details") ++
      "\n\nCUSTOMER QUESTION: " ++ query ++ "\n\n" ++
      (if is_followup then "Provide a detailed 3-4 point explanation (max 100 words)"
       else "Give a 2-sentence answer with ONE key metric, then ask if they want details.") ++
      "\n"
  let messages : List Msg := [⟨"system", advisorInstructions⟩, ⟨"user", data_summary⟩]
  match llm messages (7 / 10) with
  | .error _ =>
    format_response "Financial Advisor" "Financial Planning & Eligibility Expert"
      "I'm having trouble accessing your financial data right now. Could you try again?"
      [("error", .str "llm_error")]
  | .text content =>
    format_response "Financial Advisor" "Financial Planning & Eligibility Expert" content
      [("dti_ratio", .num (pyRound 2 dti_ratio)),
       ("dti_rating", .str dti_assessment.rating),
       ("credit_utilization", .num (pyRound 2 credit_utilization)),
       ("health_score", .num health_score),
       ("disposable_income", .num (pyRound 2 disposable_income)),
       ("max_home_price", .num mortgage_calc.max_home_price),
       ("max_auto_price", .num auto_calc.max_auto_price),
       ("is_followup", .bool is_followup)]

/-- One month-over-month row of the Analytics agent's trend analysis. -/
structure MomRow where
  current_expenses : Rat
  previous_expenses : Rat
  change : Rat
  change_pct : Rat

/-- Abridged stand-in for the Analytics Specialist's fixed instruction
prompt. -/
def analyticsInstructions : String :=
  "You are a spending analytics specialist for a VOICE-based banking assistant."

/-- `AnalyticsAgent.process`, parameterized by the Text Completion
Service. -/
def analyticsProcess (llm : LLM) (context : Context) (query : String)
    (conversation_history : List Turn) : AgentResponse :=
  let user_name := ctxFullName context
  let first_name := firstNameOf user_name
  let age := (context.profile.map Profile.age).join
  let address := (context.profile.map Profile.address).join
  let city := ((address.map Address.city).join).getD ""
  let state := ((address.map Address.state).join).getD ""
  let spending := context.spending_summary
  let transactions := context.recent_transactions
  let metrics := context.metrics
  let mom_analysis : List MomRow :=
    if spending.length ≥ 2 then
      (List.range (min 2 (spending.length - 1))).filterMap (fun i =>
        match spending.get? i, spending.get? (i + 1) with
        | some current, some previous =>
          let expense_change := current.expenses - previous.expenses
          let expense_pct :=
            if previous.expenses > 0 then expense_change / previous.expenses * 100 else 0
          some ⟨current.expenses, previous.expenses, expense_change, expense_pct⟩
        | _, _ => none)
    else []
  let category_analysis := categoryFold transactions
  let total_spending := (category_analysis.map (fun p => p.2.1)).sum
  let top_categories := (sortByAmountDesc category_analysis).take 3
  let monthly_income := metrics.monthly_income
  let monthly_obligations := metrics.monthly_obligations
  let latest_expenses := ((spending.head?).map SpendRow.expenses).getD 0
  let monthly_savings := monthly_income - monthly_obligations - latest_expenses
  let savings_rate := if monthly_income > 0 then monthly_savings / monthly_income * 100 else 0
  let age_context :=
    match age with
    | some a =>
      if a < 30 then
        "At your age, building emergency savings and paying off high-interest debt should be priorities."
      else if a < 45 then
        "Given your life stage, balancing savings, investments, and debt management is key."
      else if a < 60 then
        "At this point, maximizing retirement contributions and reducing debt is important."
      else "Focus on preserving wealth and planning for retirement income needs."
    | none => ""
  let query_lower := pyLower query
  let wants_details := ["why", "explain", "detail", "how", "what can", "more"].any
    (fun w => pyIn w query_lower)
  let conversation_context := conversationRecap 100 conversation_history
  let data_summary :=
    "\n" ++ conversation_context ++ "\n\nCUSTOMER PROFILE:\nName: " ++
      (if user_name ≠ "" then user_name else "Not provided") ++
      "\nFirst Name: " ++ (if first_name ≠ "" then first_name else "Not provided") ++
      "\nAge: " ++ (match age with | some a => toString a | none => "Unknown") ++
      "\nLocation: " ++ city ++ ", " ++ state ++
      "\nAge-Based Context: " ++ age_context ++
      "\n\nANALYTICS SUMMARY:\nMonthly Income: $" ++ fmtNum monthly_income ++
      "\nCurrent Month Expenses: $" ++ fmtNum latest_expenses ++
      "\nMonthly Savings: $" ++ fmtNum monthly_savings ++
      "\nSavings Rate: " ++ fmtNum savings_rate ++ "%" ++
      "\n\nMonth-over-Month Trend:\n" ++
      (match mom_analysis.head? with
       | some row => "current: " ++ fmtNum row.current_expenses ++ ", previous: " ++
           fmtNum row.previous_expenses ++ ", change_pct: " ++ fmtNum row.change_pct
       | none => "No trend data") ++
      "\n\nTop 3 Spending Categories:\n" ++
      String.join (top_categories.map (fun p =>
        "category: " ++ p.1 ++ ", amount: $" ++ fmtNum p.2.1 ++ ", percentage: " ++
          fmtNum (p.2.1 / total_spending * 100) ++ "%\n")) ++
      "\nCUSTOMER QUESTION: " ++ query ++ "\n\n" ++
      (if wants_details then "Provide 2-3 specific insights with numbers (max 60 words)"
       else "Give ONE key insight with ONE supporting fact (max 40 words)") ++
      ". Use their first name \"" ++ first_name ++ "\" naturally if appropriate."
  let messages : List Msg := [⟨"system", analyticsInstructions⟩, ⟨"user", data_summary⟩]
  match llm messages (3 / 5) with
  | .error _ =>
    format_response "Analytics Specialist" "Data Analysis & Insights Expert"
      ((if first_name ≠ "" then "Hi " ++ first_name ++ "! " else "") ++
        "I can't generate analytics right now. Try again in a moment.")
      [("error", .str "llm_error")]
  | .text content =>
    format_response "Analytics Specialist" "Data Analysis & Insights Expert" content
      [("months_analyzed", .num spending.length),
       ("savings_rate", .num (pyRound 1 savings_rate)),
       ("categories_analyzed", .num top_categories.length),
       ("user_name", .str user_name),
       ("user_age", match age with | some a => .num a | none => .null),
       ("age_context_provided", .bool (age_context ≠ ""))]

/-- English month name used by the CRM agent's date-of-birth formatting. -/
def monthName (m : Nat) : String :=
  if m = 1 then "January" else if m = 2 then "February" else if m = 3 then "March"
  else if m = 4 then "April" else if m = 5 then "May" else if m = 6 then "June"
  else if m = 7 then "July" else if m = 8 then "August" else if m = 9 then "September"
  else if m = 10 then "October" else if m = 11 then "November"
  else if m = 12 then "December" else ""

/-- The CRM agent's `try: strptime(dob, "%Y-%m-%d") ... strftime("%B %d, %Y")
except: dob` block, as a pure function: a parseable ISO date renders as
"Month DD, YYYY", anything else is returned unchanged (the rendered text
only feeds the prompt). -/
def formatDOB (dob : String) : String :=
  match pySplitOn dob "-" with
  | [y, m, d] =>
    match y.toNat?, m.toNat?, d.toNat? with
    | some _, some mn, some dn =>
      if 1 ≤ mn ∧ mn ≤ 12 ∧ 1 ≤ dn ∧ dn ≤ 31 then
        monthName mn ++ " " ++ d ++ ", " ++ y
      else dob
    | _, _, _ => dob
  | _ => dob

/-- Abridged stand-in for the CRM Specialist's fixed instruction prompt. -/
def crmInstructions : String :=
  "You are a CRM and customer-profile specialist for a VOICE-based banking assistant."

/-- The CRM agent's fixed-vocabulary query-type detector
(`CRMAgent.process`). -/
def crmQueryType (query : String) : String :=
  let query_lower := pyLower query
  if ["date of birth", "dob", "birth date", "birthdate", "birthday",
      "when was i born"].any (fun w => pyIn w query_lower) then "date_of_birth"
  else if ["how old", "my age", "what is my age", "age"].any
      (fun w => pyIn w query_lower) then "age"
  else if ["email", "e-mail", "mail address"].any (fun w => pyIn w query_lower) then "email"
  else if ["phone", "number", "mobile", "contact"].any (fun w => pyIn w query_lower) then
    "phone"
  else if ["address", "where do i live", "location", "city", "state"].any
      (fun w => pyIn w query_lower) then "address"
  else if ["my name", "what is my name", "who am i"].any (fun w => pyIn w query_lower) then
    "name"
  else if ["account number", "account numbers", "accounts list"].any
      (fun w => pyIn w query_lower) then "account_numbers"
  else if ["account type", "types of account", "what accounts", "account subtype"].any
      (fun w => pyIn w query_lower) then "account_types"
  else if ["primary account", "main account"].any (fun w => pyIn w query_lower) then
    "primary_account"
  else if ["profile", "my information", "my details", "complete profile",
      "all information"].any (fun w => pyIn w query_lower) then "full_profile"
  else if ["ticket", "complaint", "service request", "open issue"].any
      (fun w => pyIn w query_lower) then "service_requests"
  else if ["vip", "tier", "segment", "status", "customer type"].any
      (fun w => pyIn w query_lower) then "customer_flags"
  else if ["offer", "pre-approved", "loan offer", "card offer", "eligible"].any
      (fun w => pyIn w query_lower) then "offers"
  else if ["last time", "previous", "interaction", "what did we", "history"].any
      (fun w => pyIn w query_lower) then "interaction_history"
  else "general_profile"

/-- `CRMAgent.process`, parameterized by the Text Completion Service. -/
def crmProcess (llm : LLM) (context : Context) (query : String)
    (conversation_history : List Turn) : AgentResponse :=
  let accounts := context.accounts
  let crm_data := context.crm
  match context.profile with
  | none =>
    format_response "CRM Specialist" "Customer Relationship & Profile Management Expert"
      "I'm having trouble accessing your profile information right now. Please try again in a moment."
      [("error", .str "no_profile")]
  | some profile =>
    let full_name := profile.full_name
    let first_name := firstNameOf full_name
    let age := profile.age
    let date_of_birth := profile.date_of_birth
    let email := profile.email
    let phone := profile.phone
    let address := profile.address
    let formatted_dob := date_of_birth.map formatDOB
    let conversation_context := conversationRecap 100 conversation_history
    let query_type := crmQueryType query
    let data_summary :=
      "\n" ++ conversation_context ++ "\n\nCUSTOMER PROFILE:\nFull Name: " ++
        (if full_name ≠ "" then full_name else "Not provided") ++
        "\nFirst Name: " ++ (if first_name ≠ "" then first_name else "Not provided") ++
        "\nAge: " ++ (match age with | some a => toString a | none => "Not provided") ++
        "\nDate of Birth: " ++ (formatted_dob.getD "Not provided") ++
        "\nDate of Birth (ISO): " ++ (date_of_birth.getD "Not provided") ++
        "\nEmail: " ++ (email.getD "Not provided") ++
        "\nPhone: " ++ (phone.getD "Not provided") ++
        "\n\nAddress:\n" ++
        (match address with
         | some a => (a.city.getD "") ++ ", " ++ (a.state.getD "")
         | none => "Not provided") ++
        "\n\nACCOUNTS (" ++ toString accounts.length ++ " total):\n" ++
        (if !accounts.isEmpty then String.join (accounts.map (fun a => dumpAccount a ++ "\n"))
         else "No accounts") ++
        "\nCRM DATA:\nService Requests: " ++
        String.intercalate ", " crm_data.service_requests ++
        "\nRecent Interactions: " ++
        String.intercalate ", " (crm_data.interactions.take 5) ++
        "\nActive Offers: " ++ String.intercalate ", " crm_data.offers ++
        "\nCustomer Flags: " ++ String.intercalate ", " crm_data.flags ++
        "\nCRM Summary: " ++ String.intercalate ", " crm_data.crm_summary ++
        "\n\nQUERY TYPE DETECTED: " ++ query_type ++
        "\n\nCUSTOMER QUESTION: " ++ query ++
        "\n\nProvide a clear, direct answer using the data above.\n"
    let messages : List Msg := [⟨"system", crmInstructions⟩, ⟨"user", data_summary⟩]
    match llm messages (1 / 2) with
    | .error _ =>
      format_response "CRM Specialist" "Customer Relationship & Profile Management Expert"
        ("I'm having trouble accessing your information right now" ++
          (if first_name ≠ "" then ", " ++ first_name else "") ++ ". Could you try again?")
        [("error", .str "llm_error")]
    | .text content =>
      format_response "CRM Specialist" "Customer Relationship & Profile Management Expert"
        content
        [("query_type", .str query_type),
         ("user_name", .str full_name),
         ("has_profile", .bool true),
         ("accounts_count", .num accounts.length)]

/-- One entry of the orchestrator's intent → specialist dict: the agent's
display name and its `process` capability. -/
structure Agent where
  name : String
  process : Context → String → List Turn → AgentResponse

/-- The orchestrator's `self.agents` dict: the five fixed intent keys and
display names, with the specialist `process` implementations supplied. -/
def mkAgents (pAcc pTx pFA pAn pCRM : Context → String → List Turn → AgentResponse) :
    List (String × Agent) :=
  [("ACCOUNT_QUERY", ⟨"Account Specialist", pAcc⟩),
   ("TRANSACTION_QUERY", ⟨"Transaction Analyst", pTx⟩),
   ("FINANCIAL_ADVICE", ⟨"Financial Advisor", pFA⟩),
   ("ANALYTICS", ⟨"Analytics Specialist", pAn⟩),
   ("CRM_QUERY", ⟨"CRM Specialist", pCRM⟩)]

/-- The orchestrator's collaborators: the Context Provider, the Intent
Classifier, and the specialist dict. -/
structure Deps where
  get_user_context : String → Context
  router : Context → String → AgentResponse
  agents : List (String × Agent)

/-- The per-session conversation store `self.conversations`
(`session_id → list of turns`), insertion-ordered. -/
abbrev ConvMap : Type := List (String × List Turn)

/-- Lookup in the conversation store. -/
def convLookup (m : ConvMap) (k : String) : Option (List Turn) :=
  (m.find? (fun p => p.1 = k)).map (fun p => p.2)

/-- Assignment in the conversation store (Python dict semantics). -/
def convSet (m : ConvMap) (k : String) (v : List Turn) : ConvMap :=
  if m.any (fun p => p.1 = k) then m.map (fun p => if p.1 = k then (k, v) else p)
  else m ++ [(k, v)]

/-- The defensive placeholder profile `process_query` substitutes when the
snapshot's profile is absent. -/
def placeholderProfile (phone : String) : Profile :=
  { phone := some phone, full_name := "Valued Customer",
    age := none, email := none, address := none }

/-- The recap-prefixed enhanced query built for a continuation turn. -/
def enhancedQueryOf (query : String) (last_exchange : Turn) : String :=
  "[Previous question: " ++ last_exchange.user_query ++ "]\n[Previous response: " ++
    pyTake 200 last_exchange.bot_response ++ "...]\n[User's follow-up: " ++ query ++ "]"

/-- The `context_summary` part of the success envelope. -/
structure ContextSummary where
  accounts : Nat
  transactions : Nat
  total_balance : Rat

/-- The success envelope returned by `Orchestrator.process_query`. -/
structure Envelope where
  query : String
  intent : JVal
  confidence : JVal
  agent_used : String
  response : String
  context_summary : ContextSummary
  is_followup : Bool
  is_ending : Bool

/-- The result of `Orchestrator.process_query`: the failure envelope
(`success=false`) or the success envelope (`success=true`). -/
inductive PQResult where
  | failure (error : String) (response : String)
  | success (envelope : Envelope)

/-- Step 2 dispatch to a specialist: look the resolved intent up in the
agents dict; an unknown key is the dispatch-failure path (fixed message,
agent "Fallback").  Returns (response_text, agent_used). -/
def dispatchSpecialist (agents : List (String × Agent)) (s : String) (context : Context)
    (query : String) (conversation_history : List Turn) : String × String :=
  match (agents.find? (fun p => p.1 = s)).map (fun p => p.2) with
  | some agent =>
    ((agent.process context query conversation_history).content, agent.name)
  | none =>
    ("Your request could not be categorized. Please rephrase the question.", "Fallback")

/-- Step 1 of `process_query`: resolve (intent, confidence).  An ender turn
forces (GENERAL, 1.0); otherwise the Intent Classifier runs on the
enhanced query for a continuation (raw query otherwise), and a
continuation whose previous agent was a real specialist overrides the
classified intent through the fixed agent-name lookup. -/
def routeIntent (router : Context → String → AgentResponse) (context : Context)
    (query enhanced_query : String)
    (is_ending is_followup : Bool) (conversation_history : List Turn) : JVal × JVal :=
  if is_ending then (.str "GENERAL", .num 1)
  else
    let routing := router context (if is_followup then enhanced_query else query)
    let intent := (dictGet routing.metadata "intent").getD (.str "GENERAL")
    let confidence := (dictGet routing.metadata "confidence").getD (.num 0)
    let intent :=
      if is_followup && !conversation_history.isEmpty then
        match conversation_history.getLast? with
        | some last_exchange =>
          let last_agent := last_exchange.agent_used
          if last_agent ≠ "" ∧ last_agent ≠ "General Assistant" then
            .str (get_intent_for_agent last_agent)
          else intent
        | none => intent
      else intent
    (intent, confidence)

/-- Step 2 of `process_query`: GENERAL is handled in-process, a known
specialist key dispatches to that specialist, anything else is the
dispatch-failure path. -/
def dispatchIntent (agents : List (String × Agent)) (intent : JVal) (query : String)
    (context : Context) (conversation_history : List Turn) : String × String :=
  match intent with
  | .str s =>
    if s = "GENERAL" then
      (handle_general query context conversation_history, "General Assistant")
    else dispatchSpecialist agents s context query conversation_history
  | _ =>
    ("Your request could not be categorized. Please rephrase the question.", "Fallback")

/-- Python `if not session_id: session_id = phone` (both `None` and the
empty string are falsy). -/
def resolveSessionId (phone : String) (session_id? : Option String) : String :=
  match session_id? with
  | none => phone
  | some s => if s = "" then phone else s

/-- `Orchestrator.process_query`.  State (the conversation store) is passed
and returned explicitly; the collaborators live in `deps`. -/
def process_query (deps : Deps) (conversations : ConvMap) (phone query : String)
    (session_id? : Option String) : ConvMap × PQResult :=
  let session_id := resolveSessionId phone session_id?
  let conversations :=
    if (convLookup conversations session_id).isNone then convSet conversations session_id []
    else conversations
  let context := deps.get_user_context phone
  match context.error with
  | some err =>
    (conversations,
     .failure err
       "We were unable to access your account information. Please try logging in again.")
  | none =>
    let context :=
      if context.profile.isNone then { context with profile := some (placeholderProfile phone) }
      else context
    let conversation_history := (convLookup conversations session_id).getD []
    let is_ending := is_conversation_ender (pyLower query)
    let is_followup := is_followup_query query conversation_history
    let enhanced_query :=
      if is_followup && !conversation_history.isEmpty then
        match conversation_history.getLast? with
        | some last_exchange => enhancedQueryOf query last_exchange
        | none => query
      else query
    let routed : JVal × JVal :=
      routeIntent deps.router context query enhanced_query is_ending is_followup
        conversation_history
    let dispatched : String × String :=
      dispatchIntent deps.agents routed.1 query context conversation_history
    let hist1 : List Turn :=
      conversation_history ++ [⟨query, dispatched.1, dispatched.2, routed.1⟩]
    let hist2 := if hist1.length > 10 then hist1.drop (hist1.length - 10) else hist1
    let conversations := convSet conversations session_id hist2
    (conversations,
     .success
       { query := query, intent := routed.1, confidence := routed.2,
         agent_used := dispatched.2, response := dispatched.1,
         context_summary :=
           ⟨context.accounts.length, context.recent_transactions.length,
            context.summary.total_balance⟩,
         is_followup := is_followup, is_ending := is_ending })

/-- `Orchestrator.clear_conversation`. -/
def clear_conversation (conversations : ConvMap) (session_id : String) : ConvMap :=
  conversations.filter (fun p => p.1 ≠ session_id)

/-- Iterate `process_query` over a sequence of calls
(phone, query, optional session id), starting from a given store. -/
def runQueries (deps : Deps) (calls : List (String × String × Option String))
    (conversations : ConvMap) : ConvMap :=
  calls.foldl (fun conv c => (process_query deps conv c.1 c.2.1 c.2.2).1) conversations

/-- All eight external oracles of one assembled orchestrator. -/
structure Oracles where
  get_user_context : String → Context
  jsonParse : String → Except String (List (String × JVal))
  routerLLM : LLM
  accountLLM : LLM
  transactionLLM : LLM
  advisorLLM : LLM
  analyticsLLM : LLM
  crmLLM : LLM

/-- `Orchestrator.__init__`: the real router and the five real specialists,
over the given oracles. -/
def mkDeps (o : Oracles) : Deps :=
  { get_user_context := o.get_user_context,
    router := routerProcess o.routerLLM o.jsonParse,
    agents := mkAgents (accountProcess o.accountLLM) (transactionProcess o.transactionLLM)
      (advisorProcess o.advisorLLM) (analyticsProcess o.analyticsLLM)
      (crmProcess o.crmLLM) }

/-- Left trim (the first `dropWhile` of `pyStrip`). -/
def trimLeft (l : List Char) : List Char := l.dropWhile Char.isWhitespace

/-- Right trim (the reversed `dropWhile` of `pyStrip`). -/
def trimRight (l : List Char) : List Char :=
  (l.reverse.dropWhile Char.isWhitespace).reverse

/-- Invariant: every stored history holds at most 10 turns. -/
def histLenOK (m : ConvMap) : Prop := ∀ p ∈ m, p.2.length ≤ 10

/-- Two agent dicts agree at a query: same keys, same display names, and
pointwise-equal `process` results whenever that query is the one passed. -/
def AgentsAgreeAt (query : String) (a b : List (String × Agent)) : Prop :=
  List.Forall₂ (fun p q => p.1 = q.1 ∧ p.2.name = q.2.name ∧
    ∀ c h, p.2.process c query h = q.2.process c query h) a b

/-- Concrete profile used by the witnesses. -/
def johnProfile : Profile := { full_name := "John Doe" }

/-- Concrete healthy context snapshot used by the witnesses. -/
def johnCtx : Context :=
  { profile := some johnProfile,
    accounts := [{ name := "Checking", subtype := "checking", balance := 100,
                   available := 50 }],
    recent_transactions := [{ name := "Coffee", amount := 5 }],
    summary := { total_balance := 100, total_available := 50 } }

/-- Concrete failing context snapshot. -/
def errCtx : Context := { error := some "user not found" }

/-- A Text Completion Service that always returns the error variant. -/
def alwaysErrLLM : LLM := fun _ _ => .error "boom"

/-- A Text Completion Service that always returns a fixed non-JSON text. -/
def constTextLLM : LLM := fun _ _ => .text "not json"

/-- A JSON parser that always fails. -/
def failJsonParse : String → Except String (List (String × JVal)) :=
  fun _ => .error "Expecting value"

/-- A stub classifier answering ACCOUNT_QUERY. -/
def stubRouter : Context → String → AgentResponse :=
  fun _ _ => format_response "Router" "Intent Classifier" "Intent classified"
    [("intent", .str "ACCOUNT_QUERY"), ("confidence", .num (9 / 10))]

/-- A second stub classifier (used to vary the router). -/
def stubRouter2 : Context → String → AgentResponse :=
  fun _ _ => format_response "Router" "Intent Classifier" "Intent classified"
    [("intent", .str "GENERAL"), ("confidence", .num (1 / 2))]

/-- The real five specialists over the always-failing completion service. -/
def wAgents : List (String × Agent) :=
  mkAgents (accountProcess alwaysErrLLM) (transactionProcess alwaysErrLLM)
    (advisorProcess alwaysErrLLM) (analyticsProcess alwaysErrLLM)
    (crmProcess alwaysErrLLM)

/-- Witness orchestrator over the healthy context. -/
def wDeps : Deps :=
  { get_user_context := fun _ => johnCtx, router := stubRouter, agents := wAgents }

/-- Witness orchestrator whose context fetch fails. -/
def wErrDeps : Deps :=
  { get_user_context := fun _ => errCtx, router := stubRouter, agents := wAgents }

/-- Witness orchestrator wired to the real RouterAgent. -/
def wDeps9 : Deps :=
  { get_user_context := fun _ => johnCtx,
    router := routerProcess alwaysErrLLM failJsonParse, agents := wAgents }

/-- A stored turn answered by the Account Specialist. -/
def accTurn : Turn :=
  ⟨"what is my balance", "Your balance is $100. Anything else?",
   "Account Specialist", .str "ACCOUNT_QUERY"⟩

/-- A store whose session 555 holds one Account Specialist turn. -/
def wStoreAcc : ConvMap := [("555", [accTurn])]

/-- A store whose session 555 already holds 10 turns. -/
def wStore10 : ConvMap := [("555", List.replicate 10 accTurn)]

/-- The success envelope of one concrete `wDeps9` call. -/
def wEnv9 : Envelope :=
  match (process_query wDeps9 [] "555" "hi" none).2 with
  | .success e => e
  | .failure _ _ => ⟨"", .null, .null, "", "", ⟨0, 0, 0⟩, false, false⟩

/-- Packing a `Nat` that is a valid codepoint and reading it back. -/
theorem toNat_ofNatAux (n : Nat) (h : n.isValidChar) : (Char.ofNatAux n h).toNat = n := by
  simp [Char.ofNatAux, Char.toNat, UInt32.toNat]

/-- ASCII lowering is idempotent on characters. -/
theorem pyCharLower_idem (c : Char) : pyCharLower (pyCharLower c) = pyCharLower c := by
  unfold pyCharLower
  by_cases h : c.toNat ≥ 65 ∧ c.toNat ≤ 90
  · have h1 : c.toLower = Char.ofNat (c.toNat + 32) := by
      unfold Char.toLower
      rw [if_pos h]
    have hv : (c.toNat + 32).isValidChar := Or.inl (by omega)
    have h2 : (Char.ofNat (c.toNat + 32)).toNat = c.toNat + 32 := by
      unfold Char.ofNat
      rw [dif_pos hv]
      exact toNat_ofNatAux _ _
    rw [h1]
    unfold Char.toLower
    rw [if_neg (by rw [h2]; omega)]
  · have h1 : c.toLower = c := by
      unfold Char.toLower
      rw [if_neg h]
    rw [h1, h1]

/-- Lowering a string twice equals lowering it once. -/
theorem pyLower_pyLower (s : String) : pyLower (pyLower s) = pyLower s := by
  simp only [pyLower, List.map_map]
  congr 1
  exact List.map_congr_left (fun c _ => pyCharLower_idem c)

/-- Every character of a lowered string is a fixed point of lowering. -/
theorem mem_pyLower_fixed (s : String) :
    ∀ c ∈ (pyLower s).data, pyCharLower c = c := by
  intro c hc
  simp only [pyLower] at hc
  obtain ⟨d, _, rfl⟩ := List.mem_map.mp hc
  exact pyCharLower_idem d

/-- A string all of whose characters are lowering-fixed is unchanged by
lowering. -/
theorem pyLower_eq_self (s : String) (h : ∀ c ∈ s.data, pyCharLower c = c) :
    pyLower s = s := by
  cases s with
  | mk data =>
    simp only [pyLower]
    congr 1
    calc List.map pyCharLower data = List.map id data :=
          List.map_congr_left (fun c hc => h c hc)
      _ = data := List.map_id data

/-- Dropping a prefix by a predicate is idempotent. -/
theorem dropWhile_dropWhile (p : Char → Bool) (l : List Char) :
    (l.dropWhile p).dropWhile p = l.dropWhile p := by
  induction l with
  | nil => simp
  | cons c cs ih =>
    by_cases h : p c
    · simp [List.dropWhile_cons, h, ih]
    · simp [List.dropWhile_cons, h]

/-- The head surviving `dropWhile` fails the predicate. -/
theorem dropWhile_head_not (p : Char → Bool) (l : List Char) :
    ∀ c, (l.dropWhile p).head? = some c → p c = false := by
  induction l with
  | nil => intro c h; simp at h
  | cons d ds ih =>
    intro c h
    by_cases hd : p d
    · exact ih c (by simpa [List.dropWhile_cons, hd] using h)
    · simp only [List.dropWhile_cons, hd, if_neg] at h
      simp only [List.head?] at h
      cases h
      simpa using hd

/-- `dropWhile` produces a suffix. -/
theorem dropWhile_isSuffix (p : Char → Bool) (l : List Char) :
    ∃ t, t ++ l.dropWhile p = l := by
  induction l with
  | nil => exact ⟨[], rfl⟩
  | cons c cs ih =>
    by_cases h : p c
    · obtain ⟨t, ht⟩ := ih
      exact ⟨c :: t, by simp [List.dropWhile_cons, h, ht]⟩
    · exact ⟨[], by simp [List.dropWhile_cons, h]⟩

/-- A nonempty prefix starts with the same head. -/
theorem prefix_head (s m : List Char) (h : ∃ t, s ++ t = m) (c : Char)
    (hc : s.head? = some c) : m.head? = some c := by
  obtain ⟨t, rfl⟩ := h
  cases s with
  | nil => simp at hc
  | cons a as =>
    simp only [List.head?] at hc ⊢
    simpa using hc

/-- A list whose head fails the predicate is unchanged by `dropWhile`. -/
theorem dropWhile_eq_self_of_head (p : Char → Bool) (l : List Char)
    (h : ∀ c, l.head? = some c → p c = false) : l.dropWhile p = l := by
  cases l with
  | nil => rfl
  | cons c cs =>
    have := h c (by simp)
    simp [List.dropWhile_cons, this]

/-- `pyStrip` on the underlying character list. -/
theorem pyStrip_eq (s : String) : pyStrip s = ⟨trimRight (trimLeft s.data)⟩ := rfl

/-- Right trimming is idempotent. -/
theorem trimRight_trimRight (l : List Char) : trimRight (trimRight l) = trimRight l := by
  simp [trimRight, List.reverse_reverse, dropWhile_dropWhile]

/-- A list whose head is not whitespace is unchanged by left trimming after
a right trim. -/
theorem trimLeft_trimRight (l : List Char)
    (h : ∀ c, l.head? = some c → c.isWhitespace = false) :
    trimLeft (trimRight l) = trimRight l := by
  obtain ⟨t, ht⟩ := dropWhile_isSuffix Char.isWhitespace l.reverse
  have hpre : trimRight l ++ t.reverse = l := by
    have := congrArg List.reverse ht
    simpa [trimRight, List.reverse_append] using this
  refine dropWhile_eq_self_of_head _ _ (fun c hc => ?_)
  exact h c (prefix_head _ _ ⟨t.reverse, hpre⟩ c hc)

/-- Stripping both ends is idempotent. -/
theorem trim_idem (l : List Char) :
    trimRight (trimLeft (trimRight (trimLeft l))) = trimRight (trimLeft l) := by
  rw [trimLeft_trimRight (trimLeft l) (dropWhile_head_not _ _), trimRight_trimRight]

/-- Python strip is idempotent. -/
theorem pyStrip_pyStrip (s : String) : pyStrip (pyStrip s) = pyStrip s := by
  have h : pyStrip (pyStrip s) =
      ⟨trimRight (trimLeft (trimRight (trimLeft s.data)))⟩ := rfl
  rw [h, trim_idem, pyStrip_eq]

/-- Characters of a stripped string come from the original string. -/
theorem mem_pyStrip (s : String) (c : Char) (h : c ∈ (pyStrip s).data) :
    c ∈ s.data := by
  rw [pyStrip_eq] at h
  simp only [trimRight, trimLeft, List.mem_reverse] at h
  obtain ⟨t1, ht1⟩ := dropWhile_isSuffix Char.isWhitespace
    (s.data.dropWhile Char.isWhitespace).reverse
  have h1 : c ∈ (s.data.dropWhile Char.isWhitespace).reverse := by
    rw [← ht1]
    exact List.mem_append_right _ h
  obtain ⟨t2, ht2⟩ := dropWhile_isSuffix Char.isWhitespace s.data
  rw [List.mem_reverse] at h1
  rw [← ht2]
  exact List.mem_append_right _ h1

/-- Lowering fixes an already-lowered string even after stripping. -/
theorem pyLower_pyStrip_pyLower (s : String) :
    pyLower (pyStrip (pyLower s)) = pyStrip (pyLower s) :=
  pyLower_eq_self _ (fun c hc => mem_pyLower_fixed s c (mem_pyStrip _ c hc))

/-- The ender test on a lowered query equals the ender test on the
lowered-and-stripped query (lowering and stripping are idempotent). -/
theorem is_conversation_ender_pyLower (q : String) :
    is_conversation_ender (pyLower q) = is_conversation_ender (pyStrip (pyLower q)) := by
  unfold is_conversation_ender
  rw [pyLower_pyLower, pyLower_pyStrip_pyLower, pyStrip_pyStrip]

/-- A detected continuation is never an ender turn. -/
theorem is_followup_not_ender (q : String) (h : List Turn)
    (hf : is_followup_query q h = true) : is_conversation_ender (pyLower q) = false := by
  unfold is_followup_query at hf
  by_cases he : h.isEmpty
  · simp [he] at hf
  · rw [is_conversation_ender_pyLower]
    by_cases hc : is_conversation_ender (pyStrip (pyLower q)) = true
    · simp [he, hc] at hf
    · simpa using hc

/-- A detected continuation needs a nonempty history. -/
theorem is_followup_history_ne (q : String) (h : List Turn)
    (hf : is_followup_query q h = true) : h.isEmpty = false := by
  unfold is_followup_query at hf
  by_cases he : h.isEmpty
  · simp [he] at hf
  · simpa using he

/-- Looking up the key just assigned in an ordered association list. -/
theorem alist_set_get_self {α : Type} (m : List (String × α)) (k : String) (v : α) :
    (((if m.any (fun p => p.1 = k) then m.map (fun p => if p.1 = k then (k, v) else p)
       else m ++ [(k, v)]).find? (fun p => p.1 = k)).map (fun p => p.2)) = some v := by
  by_cases h : m.any (fun p => p.1 = k)
  · rw [if_pos h]
    induction m with
    | nil => simp at h
    | cons p ps ih =>
      by_cases hp : p.1 = k
      · simp [List.find?_cons, hp]
      · have hps : ps.any (fun p => p.1 = k) := by
          simpa [List.any_cons, hp] using h
        simpa [List.find?_cons, hp] using ih hps
  · rw [if_neg h]
    have hnone : m.find? (fun p => p.1 = k) = none := by
      rw [List.find?_eq_none]
      intro p hp
      simp only [List.any_eq_true, not_exists, not_and] at h
      simpa using h p hp
    rw [List.find?_append, hnone]
    simp

/-- Updating the value at one key leaves every other key's lookup
unchanged (map half of `alist_set_get_ne`). -/
theorem alist_map_get_ne {α : Type} (m : List (String × α)) (k k' : String) (v : α)
    (hk : k' ≠ k) :
    (((m.map (fun p => if p.1 = k then (k, v) else p)).find?
        (fun p => p.1 = k')).map (fun p => p.2)) =
    ((m.find? (fun p => p.1 = k')).map (fun p => p.2)) := by
  have hkk : ¬(k = k') := fun hEq => hk hEq.symm
  induction m with
  | nil => rfl
  | cons p ps ih =>
    by_cases hp : p.1 = k
    · have hp' : ¬(p.1 = k') := by
        rw [hp]
        exact hkk
      simp only [List.map_cons, List.find?_cons, if_pos hp]
      rw [decide_eq_false hkk, decide_eq_false hp']
      exact ih
    · simp only [List.map_cons, List.find?_cons, if_neg hp]
      by_cases hpk : p.1 = k'
      · rw [decide_eq_true hpk]
      · rw [decide_eq_false hpk]
        exact ih

/-- Assigning one key leaves every other key's lookup unchanged. -/
theorem alist_set_get_ne {α : Type} (m : List (String × α)) (k k' : String) (v : α)
    (hk : k' ≠ k) :
    (((if m.any (fun p => p.1 = k) then m.map (fun p => if p.1 = k then (k, v) else p)
       else m ++ [(k, v)]).find? (fun p => p.1 = k')).map (fun p => p.2)) =
    ((m.find? (fun p => p.1 = k')).map (fun p => p.2)) := by
  by_cases h : m.any (fun p => p.1 = k)
  · rw [if_pos h]
    exact alist_map_get_ne m k k' v hk
  · rw [if_neg h, List.find?_append]
    have hsingle : ([(k, v)].find? (fun p => p.1 = k')) = none := by
      have hkk : ¬(k = k') := fun hEq => hk hEq.symm
      simp [List.find?_cons, hkk]
    rw [hsingle]
    cases m.find? (fun p => p.1 = k') <;> simp

/-- `convLookup` after `convSet` at the same key. -/
theorem convLookup_convSet_self (m : ConvMap) (k : String) (v : List Turn) :
    convLookup (convSet m k v) k = some v :=
  alist_set_get_self m k v

/-- `convLookup` after `convSet` at a different key. -/
theorem convLookup_convSet_ne (m : ConvMap) (k k' : String) (v : List Turn)
    (hk : k' ≠ k) : convLookup (convSet m k v) k' = convLookup m k' :=
  alist_set_get_ne m k k' v hk

/-- `dictGet` after `dictSet` at the same key. -/
theorem dictGet_dictSet_self (m : List (String × JVal)) (k : String) (v : JVal) :
    dictGet (dictSet m k v) k = some v :=
  alist_set_get_self m k v

/-- `dictGet` after `dictSet` at a different key. -/
theorem dictGet_dictSet_ne (m : List (String × JVal)) (k k' : String) (v : JVal)
    (hk : k' ≠ k) : dictGet (dictSet m k v) k' = dictGet m k' :=
  alist_set_get_ne m k k' v hk

/-- C5: whenever the Context Provider's result contains an "error" key,
`process_query` immediately returns the failure envelope (echoing the
provider's error, with the fixed apology response); the result is the same
for any Intent Classifier and any specialist set (so neither is invoked);
and no session's stored history gains a turn (the only possible store
change is the creation of an empty history for a previously unseen
session id). -/
theorem context_error_short_circuits (deps : Deps)
    (router' : Context → String → AgentResponse) (agents' : List (String × Agent))
    (conversations : ConvMap) (phone query : String) (sid : Option String) (e : String)
    (hCtx : (deps.get_user_context phone).error = some e) :
    process_query deps conversations phone query sid =
      (if (convLookup conversations (resolveSessionId phone sid)).isNone then
         convSet conversations (resolveSessionId phone sid) []
       else conversations,
       .failure e
         "We were unable to access your account information. Please try logging in again.")
    ∧ process_query ⟨deps.get_user_context, router', agents'⟩ conversations phone query sid =
        process_query deps conversations phone query sid
    ∧ ∀ k, convLookup (process_query deps conversations phone query sid).1 k =
        convLookup conversations k ∨
        (convLookup conversations k = none ∧
         convLookup (process_query deps conversations phone query sid).1 k = some []) := by
  refine ⟨?_, ?_, ?_⟩
  · simp only [process_query, hCtx]
  · simp only [process_query, hCtx]
  · intro k
    simp only [process_query, hCtx]
    by_cases hl : (convLookup conversations (resolveSessionId phone sid)).isNone
    · rw [if_pos hl]
      by_cases hk : k = resolveSessionId phone sid
      · right
        rw [hk]
        exact ⟨Option.isNone_iff_eq_none.mp hl, convLookup_convSet_self _ _ _⟩
      · left
        exact convLookup_convSet_ne _ _ _ _ hk
    · rw [if_neg hl]
      left
      rfl

/-- C10: a call with a previously unseen session id that then fails the
context fetch still creates the session entry (with an empty history),
even though the call returns the failure envelope and appends no turn. -/
theorem new_session_entry_despite_error (deps : Deps) (conversations : ConvMap)
    (phone query : String) (sid : Option String) (e : String)
    (hNew : convLookup conversations (resolveSessionId phone sid) = none)
    (hCtx : (deps.get_user_context phone).error = some e) :
    convLookup (process_query deps conversations phone query sid).1
      (resolveSessionId phone sid) = some [] ∧
    (process_query deps conversations phone query sid).2 =
      .failure e
        "We were unable to access your account information. Please try logging in again." := by
  have hl : (convLookup conversations (resolveSessionId phone sid)).isNone := by
    simp [hNew]
  constructor
  · simp only [process_query, hCtx]
    rw [if_pos hl]
    exact convLookup_convSet_self _ _ _
  · simp only [process_query, hCtx]

/-- An exact ender phrase (after lowering and stripping) makes the ender
detector fire on the lowered query. -/
theorem ender_exact_lower (q : String)
    (h : enders.contains (pyStrip (pyLower q)) = true) :
    is_conversation_ender (pyLower q) = true := by
  unfold is_conversation_ender
  simp only [pyLower_pyLower, h]
  simp

/-- C1: a query whose lower-cased trimmed text exactly equals an ender
phrase resolves to intent GENERAL with confidence 1.0, and the Intent
Classifier is never consulted: the entire call result is unchanged under
an arbitrary replacement of the router. -/
theorem ender_query_forces_general (deps : Deps)
    (router' : Context → String → AgentResponse)
    (conversations : ConvMap) (phone query : String) (sid : Option String)
    (hEnder : enders.contains (pyStrip (pyLower query)) = true)
    (hCtx : (deps.get_user_context phone).error = none) :
    (∃ env, (process_query deps conversations phone query sid).2 = .success env ∧
       env.intent = .str "GENERAL" ∧ env.confidence = .num 1 ∧ env.is_ending = true)
    ∧ process_query { deps with router := router' } conversations phone query sid =
        process_query deps conversations phone query sid := by
  have hend : is_conversation_ender (pyLower query) = true := ender_exact_lower query hEnder
  constructor
  · simp only [process_query, routeIntent, hCtx, hend]
    exact ⟨_, rfl, rfl, rfl, rfl⟩
  · simp [process_query, routeIntent, hCtx, hend]

/-- Evaluation of the continuation heuristic under its firing conditions:
the flag equals "history is nonempty". -/
theorem is_followup_query_eval (query : String) (h : List Turn)
    (hWords : (pySplitWS query).length ≤ 4)
    (hPat : followup_patterns.any (fun p =>
      pyStartsWith (pyStrip (pyLower query)) p || pyStrip (pyLower query) = p) = true)
    (hNotEnder : is_conversation_ender (pyStrip (pyLower query)) = false) :
    is_followup_query query h = !h.isEmpty := by
  unfold is_followup_query
  by_cases he : h.isEmpty
  · simp [he]
  · simp only [he, Bool.not_false, if_false]
    simp only [hNotEnder, hPat, hWords, if_true, if_false, Bool.false_eq_true]

/-- Initializing an unseen session with an empty history does not change
the history that a subsequent `getD []` read sees. -/
theorem convLookup_init_getD (m : ConvMap) (k : String) :
    ((convLookup (if (convLookup m k).isNone then convSet m k [] else m) k).getD []) =
      ((convLookup m k).getD []) := by
  by_cases h : (convLookup m k).isNone
  · rw [if_pos h, convLookup_convSet_self, Option.isNone_iff_eq_none.mp h]
    rfl
  · rw [if_neg h]

/-- C3: a query of at most 4 whitespace words whose lower-cased trimmed
text starts with (or equals) a continuation phrase, and which is not an
ender, is flagged `is_followup` exactly when the session history is
nonempty — in particular the very first turn of a session reports
`is_followup = false`. -/
theorem followup_flag_iff_history (deps : Deps) (conversations : ConvMap)
    (phone query : String) (sid : Option String)
    (hCtx : (deps.get_user_context phone).error = none)
    (hWords : (pySplitWS query).length ≤ 4)
    (hPat : followup_patterns.any (fun p =>
      pyStartsWith (pyStrip (pyLower query)) p || pyStrip (pyLower query) = p) = true)
    (hNotEnder : is_conversation_ender (pyStrip (pyLower query)) = false) :
    ∃ env, (process_query deps conversations phone query sid).2 = .success env ∧
      env.is_followup =
        !((convLookup conversations (resolveSessionId phone sid)).getD []).isEmpty := by
  simp only [process_query, hCtx]
  refine ⟨_, rfl, ?_⟩
  rw [convLookup_init_getD]
  exact is_followup_query_eval query _ hWords hPat hNotEnder

/-- `convSet` preserves the bound when the assigned history obeys it. -/
theorem histLenOK_convSet (m : ConvMap) (k : String) (v : List Turn)
    (hm : histLenOK m) (hv : v.length ≤ 10) : histLenOK (convSet m k v) := by
  intro p hp
  unfold convSet at hp
  by_cases h : m.any (fun q => q.1 = k)
  · rw [if_pos h] at hp
    obtain ⟨q, hq, rfl⟩ := List.mem_map.mp hp
    by_cases hqk : q.1 = k
    · simpa [hqk] using hv
    · simpa [hqk] using hm q hq
  · rw [if_neg h] at hp
    rcases List.mem_append.mp hp with h1 | h2
    · exact hm p h1
    · have : p = (k, v) := by simpa using h2
      rw [this]
      exact hv

/-- Any history read out of a bounded store is bounded. -/
theorem histLenOK_lookup (m : ConvMap) (k : String) (hm : histLenOK m) :
    ((convLookup m k).getD []).length ≤ 10 := by
  unfold convLookup
  cases hfind : m.find? (fun p => p.1 = k) with
  | none => simp
  | some p =>
    have := List.mem_of_find?_eq_some hfind
    simpa using hm p this

/-- The store returned by `process_query` is either just the initialized
store (failure path) or that store with one trimmed history assigned
(success path). -/
theorem process_query_store_shape (deps : Deps) (m : ConvMap)
    (phone query : String) (sid : Option String) :
    (process_query deps m phone query sid).1 =
      (if (convLookup m (resolveSessionId phone sid)).isNone then
        convSet m (resolveSessionId phone sid) [] else m) ∨
    ∃ t : Turn,
      (process_query deps m phone query sid).1 =
        convSet
          (if (convLookup m (resolveSessionId phone sid)).isNone then
            convSet m (resolveSessionId phone sid) [] else m)
          (resolveSessionId phone sid)
          (if (((convLookup (if (convLookup m (resolveSessionId phone sid)).isNone then
                  convSet m (resolveSessionId phone sid) [] else m)
                  (resolveSessionId phone sid)).getD []) ++ [t]).length > 10 then
            (((convLookup (if (convLookup m (resolveSessionId phone sid)).isNone then
                convSet m (resolveSessionId phone sid) [] else m)
                (resolveSessionId phone sid)).getD []) ++ [t]).drop
              ((((convLookup (if (convLookup m (resolveSessionId phone sid)).isNone then
                  convSet m (resolveSessionId phone sid) [] else m)
                  (resolveSessionId phone sid)).getD []) ++ [t]).length - 10)
          else
            ((convLookup (if (convLookup m (resolveSessionId phone sid)).isNone then
              convSet m (resolveSessionId phone sid) [] else m)
              (resolveSessionId phone sid)).getD []) ++ [t]) := by
  simp only [process_query]
  cases hctx : (deps.get_user_context phone).error with
  | some e =>
    left
    rfl
  | none =>
    right
    exact ⟨_, rfl⟩

/-- One `process_query` call preserves the 10-turn bound. -/
theorem process_query_preserves_histLenOK (deps : Deps) (m : ConvMap)
    (phone query : String) (sid : Option String) (hm : histLenOK m) :
    histLenOK (process_query deps m phone query sid).1 := by
  have hm1 : histLenOK (if (convLookup m (resolveSessionId phone sid)).isNone then
      convSet m (resolveSessionId phone sid) [] else m) := by
    by_cases h : (convLookup m (resolveSessionId phone sid)).isNone
    · rw [if_pos h]
      exact histLenOK_convSet _ _ _ hm (by simp)
    · rw [if_neg h]
      exact hm
  rcases process_query_store_shape deps m phone query sid with h | ⟨t, h⟩
  · rw [h]
    exact hm1
  · rw [h]
    apply histLenOK_convSet _ _ _ hm1
    have hh := histLenOK_lookup
      (if (convLookup m (resolveSessionId phone sid)).isNone then
        convSet m (resolveSessionId phone sid) [] else m)
      (resolveSessionId phone sid) hm1
    by_cases hl : ((((convLookup (if (convLookup m (resolveSessionId phone sid)).isNone then
        convSet m (resolveSessionId phone sid) [] else m)
        (resolveSessionId phone sid)).getD []) ++ [t]).length > 10)
    · rw [if_pos hl]
      simp only [List.length_drop]
      omega
    · rw [if_neg hl]
      simp only [List.length_append, List.length_cons, List.length_nil] at hl ⊢
      omega

/-- Appending one turn to a full (10-turn) history and trimming evicts
exactly the oldest turn. -/
theorem trim_of_len10 (hist : List Turn) (h : hist.length = 10) (t : Turn) :
    (if (hist ++ [t]).length > 10 then
      (hist ++ [t]).drop ((hist ++ [t]).length - 10) else hist ++ [t]) =
    hist.tail ++ [t] := by
  have hgt : (hist ++ [t]).length > 10 := by
    simp [h]
  rw [if_pos hgt]
  simp only [List.length_append, List.length_cons, List.length_nil, h]
  rw [show (10 + (0 + 1) - 10 : Nat) = 1 by omega]
  rw [List.drop_append_of_le_length (by omega : 1 ≤ hist.length)]
  rw [List.drop_one]

/-- C2: starting from a fresh orchestrator, no session's stored history
ever exceeds 10 turns; and on the call that would make it 11 turns the
oldest turn is evicted — the new history is the old history's tail plus
the one new turn (FIFO by insertion order). -/
theorem history_bounded_and_fifo :
    (∀ (deps : Deps) (calls : List (String × String × Option String)) (k : String),
      ((convLookup (runQueries deps calls []) k).getD []).length ≤ 10)
    ∧ ∀ (deps : Deps) (m : ConvMap) (phone query : String) (sid : Option String),
        (deps.get_user_context phone).error = none →
        ((convLookup m (resolveSessionId phone sid)).getD []).length = 10 →
        ∃ t : Turn,
          convLookup (process_query deps m phone query sid).1
              (resolveSessionId phone sid) =
            some (((convLookup m (resolveSessionId phone sid)).getD []).tail ++ [t]) := by
  constructor
  · intro deps calls k
    have main : ∀ (cs : List (String × String × Option String)) (m : ConvMap),
        histLenOK m → histLenOK (runQueries deps cs m) := by
      intro cs
      induction cs with
      | nil => intro m hm; exact hm
      | cons c rest ih =>
        intro m hm
        exact ih _ (process_query_preserves_histLenOK deps m c.1 c.2.1 c.2.2 hm)
    exact histLenOK_lookup _ _ (main calls [] (by intro p hp; simp at hp))
  · intro deps m phone query sid hCtx hLen
    have hinit : (if (convLookup m (resolveSessionId phone sid)).isNone then
        convSet m (resolveSessionId phone sid) [] else m) = m := by
      have : ¬(convLookup m (resolveSessionId phone sid)).isNone := by
        intro hnone
        rw [Option.isNone_iff_eq_none.mp hnone] at hLen
        simp at hLen
      rw [if_neg this]
    simp only [process_query, hCtx, hinit]
    simp only [convLookup_convSet_self, trim_of_len10 _ hLen]
    exact ⟨_, rfl⟩

/-- C4: when the previous turn was answered by the Account Specialist and
the current query is a detected continuation, the resolved intent is
ACCOUNT_QUERY via the fixed agent-name lookup for any classifier output
(the classifier does not determine dispatch), and the classifier is
consulted only on the recap-enhanced query: two routers that agree on the
enhanced query give identical call results. -/
theorem continuation_reuses_prior_specialist (deps : Deps)
    (conversations : ConvMap) (phone query : String) (sid : Option String) (last : Turn)
    (hCtx : (deps.get_user_context phone).error = none)
    (hLast : ((convLookup conversations (resolveSessionId phone sid)).getD []).getLast?
      = some last)
    (hAgent : last.agent_used = "Account Specialist")
    (hFup : is_followup_query query
      ((convLookup conversations (resolveSessionId phone sid)).getD []) = true) :
    (∃ env, (process_query deps conversations phone query sid).2 = .success env ∧
       env.intent = .str "ACCOUNT_QUERY")
    ∧ ∀ router' : Context → String → AgentResponse,
        (∀ c, router' c (enhancedQueryOf query last) =
          deps.router c (enhancedQueryOf query last)) →
        process_query { deps with router := router' } conversations phone query sid =
          process_query deps conversations phone query sid := by
  have hEnd := is_followup_not_ender query _ hFup
  have hEmpty := is_followup_history_ne query _ hFup
  constructor
  · simp only [process_query, routeIntent, dispatchIntent, hCtx, convLookup_init_getD,
      hFup, hEnd, hEmpty, hLast,
      hAgent, get_intent_for_agent, Bool.not_false, Bool.and_self, if_true, if_false,
      Bool.false_eq_true, ite_false, ite_true]
    exact ⟨_, rfl, by simp⟩
  · intro router' hagree
    simp only [process_query, routeIntent, dispatchIntent, hCtx, convLookup_init_getD,
      hFup, hEnd, hEmpty, hLast,
      hAgent, hagree, Bool.not_false, Bool.and_self, if_true, if_false,
      Bool.false_eq_true, ite_false, ite_true]

/-- Dispatch looks only at keys, names, and the process result at the
dispatched query. -/
theorem dispatchSpecialist_agree (query : String) (a b : List (String × Agent))
    (hab : AgentsAgreeAt query a b) (s : String) (c : Context) (h : List Turn) :
    dispatchSpecialist b s c query h = dispatchSpecialist a s c query h := by
  induction hab with
  | nil => rfl
  | @cons p q as bs hpq _ ih =>
    obtain ⟨hkey, hname, hproc⟩ := hpq
    unfold dispatchSpecialist
    simp only [List.find?_cons]
    by_cases hs : p.1 = s
    · have hqs : q.1 = s := hkey ▸ hs
      rw [decide_eq_true hs, decide_eq_true hqs]
      show ((q.2.process c query h).content, q.2.name) =
        ((p.2.process c query h).content, p.2.name)
      rw [hname, hproc c h]
    · have hqs : ¬(q.1 = s) := hkey ▸ hs
      rw [decide_eq_false hs, decide_eq_false hqs]
      exact ih

/-- C8: on a continuation turn the turn appended to the session history
records the raw query as `user_query`, and a dispatched specialist only
ever receives the raw (non-enhanced) query: replacing every specialist by
one that agrees with it on the raw query (but may differ arbitrarily on
any other query, the enhanced one included) leaves the whole call result
unchanged. -/
theorem raw_query_dispatch_and_history (deps : Deps) (conversations : ConvMap)
    (phone query : String) (sid : Option String)
    (hCtx : (deps.get_user_context phone).error = none)
    (hFup : is_followup_query query
      ((convLookup conversations (resolveSessionId phone sid)).getD []) = true) :
    (∃ t : Turn, t.user_query = query ∧
      convLookup (process_query deps conversations phone query sid).1
          (resolveSessionId phone sid) =
        some (if (((convLookup conversations (resolveSessionId phone sid)).getD [])
                ++ [t]).length > 10 then
            (((convLookup conversations (resolveSessionId phone sid)).getD []) ++ [t]).drop
              ((((convLookup conversations (resolveSessionId phone sid)).getD [])
                ++ [t]).length - 10)
          else ((convLookup conversations (resolveSessionId phone sid)).getD []) ++ [t]))
    ∧ ∀ agents' : List (String × Agent), AgentsAgreeAt query deps.agents agents' →
        process_query { deps with agents := agents' } conversations phone query sid =
          process_query deps conversations phone query sid := by
  constructor
  · simp only [process_query, hCtx, convLookup_convSet_self, convLookup_init_getD]
    exact ⟨_, rfl, rfl⟩
  · intro agents' hagree
    simp only [process_query, dispatchIntent, hCtx,
      dispatchSpecialist_agree query _ _ hagree]

/-- The fixed agent-name lookup always returns one of the six intents. -/
theorem get_intent_for_agent_valid (name : String) :
    valid_intents.contains (get_intent_for_agent name) = true := by
  unfold get_intent_for_agent
  split_ifs <;> decide

/-- The Intent Classifier returns a valid string intent on every path:
transport error, parse failure, and parse success (validation coerces
anything else to GENERAL). -/
theorem routerProcess_intent_valid (llm : LLM)
    (jp : String → Except String (List (String × JVal)))
    (context : Context) (query : String) :
    ∃ s, dictGet (routerProcess llm jp context query).metadata "intent" =
      some (.str s) ∧ valid_intents.contains s = true := by
  unfold routerProcess
  split
  · exact ⟨"GENERAL", rfl, by decide⟩
  · split
    · exact ⟨"GENERAL", rfl, by decide⟩
    · rename_i classification heq
      show ∃ s, dictGet (validateClassification classification) "intent" =
        some (.str s) ∧ valid_intents.contains s = true
      unfold validateClassification
      by_cases h : jvalInStrList ((dictGet classification "intent").getD .null)
          valid_intents = true
      · rw [if_pos h]
        cases hd : dictGet classification "intent" with
        | none =>
          rw [hd] at h
          simp [jvalInStrList] at h
        | some v =>
          rw [hd] at h
          cases v with
          | str s => exact ⟨s, rfl, by simpa [jvalInStrList] using h⟩
          | num q => simp [jvalInStrList] at h
          | bool b => simp [jvalInStrList] at h
          | null => simp [jvalInStrList] at h
          | arr xs => simp [jvalInStrList] at h
          | obj fs => simp [jvalInStrList] at h
      · rw [if_neg h]
        refine ⟨"GENERAL", ?_, by decide⟩
        rw [dictGet_dictSet_ne _ _ _ _ (by decide), dictGet_dictSet_ne _ _ _ _ (by decide),
          dictGet_dictSet_self]

/-- With a classifier whose intents are valid, the resolved intent of a
turn (after the ender shortcut and the continuation override) is always a
valid intent string. -/
theorem routeIntent_valid (router : Context → String → AgentResponse)
    (hrouter : ∀ c q, ∃ s, dictGet (router c q).metadata "intent" = some (.str s) ∧
      valid_intents.contains s = true)
    (context : Context) (query enhanced_query : String) (is_ending is_followup : Bool)
    (conversation_history : List Turn) :
    ∃ s, (routeIntent router context query enhanced_query is_ending is_followup
        conversation_history).1 = .str s ∧ valid_intents.contains s = true := by
  unfold routeIntent
  by_cases he : is_ending = true
  · rw [if_pos he]
    exact ⟨"GENERAL", rfl, by decide⟩
  · rw [if_neg he]
    obtain ⟨s, hs, hv⟩ :=
      hrouter context (if is_followup then enhanced_query else query)
    simp only [hs, Option.getD_some]
    by_cases hb : (is_followup && !conversation_history.isEmpty) = true
    · rw [if_pos hb]
      cases hl : conversation_history.getLast? with
      | none => exact ⟨s, rfl, hv⟩
      | some last =>
        dsimp only
        by_cases hcond : last.agent_used ≠ "" ∧ last.agent_used ≠ "General Assistant"
        · rw [if_pos hcond]
          exact ⟨get_intent_for_agent last.agent_used, rfl,
            get_intent_for_agent_valid _⟩
        · rw [if_neg hcond]
          exact ⟨s, rfl, hv⟩
    · rw [if_neg hb]
      exact ⟨s, rfl, hv⟩

/-- Dispatching any of the six valid intents over the real five-key agent
dict never lands in the "Fallback" branch. -/
theorem dispatchIntent_no_fallback
    (p1 p2 p3 p4 p5 : Context → String → List Turn → AgentResponse) (s : String)
    (hs : valid_intents.contains s = true) (query : String) (context : Context)
    (conversation_history : List Turn) :
    (dispatchIntent (mkAgents p1 p2 p3 p4 p5) (.str s) query context
      conversation_history).2 ≠ "Fallback" := by
  have hor : s = "ACCOUNT_QUERY" ∨ s = "TRANSACTION_QUERY" ∨ s = "FINANCIAL_ADVICE" ∨
      s = "ANALYTICS" ∨ s = "CRM_QUERY" ∨ s = "GENERAL" := by
    simpa [valid_intents] using hs
  rcases hor with rfl | rfl | rfl | rfl | rfl | rfl <;>
    simp [dispatchIntent, dispatchSpecialist, mkAgents, List.find?]

/-- C9: for an orchestrator wired to the real RouterAgent (over arbitrary
LLM and JSON-parse oracles) and the real five-key agent dict (over
arbitrary specialist implementations), every success envelope carries one
of the six enumerated intents and the dispatch-failure branch producing
`agent_used = "Fallback"` is unreachable. -/
theorem dispatch_fallback_unreachable (deps : Deps) (rLLM : LLM)
    (jp : String → Except String (List (String × JVal)))
    (p1 p2 p3 p4 p5 : Context → String → List Turn → AgentResponse)
    (hr : deps.router = routerProcess rLLM jp)
    (ha : deps.agents = mkAgents p1 p2 p3 p4 p5)
    (conversations : ConvMap) (phone query : String) (sid : Option String)
    (env : Envelope)
    (h : (process_query deps conversations phone query sid).2 = .success env) :
    jvalInStrList env.intent valid_intents = true ∧ env.agent_used ≠ "Fallback" := by
  have hrouter : ∀ c q, ∃ s, dictGet (deps.router c q).metadata "intent" =
      some (.str s) ∧ valid_intents.contains s = true := by
    rw [hr]
    exact routerProcess_intent_valid rLLM jp
  have main : ∀ (c : Context) (q eq : String) (ie ifu : Bool) (hist : List Turn),
      jvalInStrList (routeIntent deps.router c q eq ie ifu hist).1 valid_intents = true ∧
      (dispatchIntent deps.agents (routeIntent deps.router c q eq ie ifu hist).1
        q c hist).2 ≠ "Fallback" := by
    intro c q eq ie ifu hist
    obtain ⟨s, hs, hv⟩ := routeIntent_valid deps.router hrouter c q eq ie ifu hist
    rw [hs]
    refine ⟨by simpa [jvalInStrList] using hv, ?_⟩
    rw [ha]
    exact dispatchIntent_no_fallback p1 p2 p3 p4 p5 s hv q c hist
  cases hctx : (deps.get_user_context phone).error with
  | some e =>
    simp only [process_query, hctx] at h
    exact absurd h (by simp)
  | none =>
    simp only [process_query, hctx] at h
    injection h with h
    subst h
    exact ⟨(main _ _ _ _ _ _).1, (main _ _ _ _ _ _).2⟩

/-- C7: classifier output that fails JSON parsing is coerced to intent
GENERAL with confidence 0.5 and an explanatory reasoning string; and the
validation step is idempotent — a classification whose intent is already
one of the six valid values (in particular the already-coerced GENERAL
fallback) passes through unchanged. -/
theorem classifier_coercion_and_validation_idem :
    (∀ (llm : LLM) (jp : String → Except String (List (String × JVal)))
       (context : Context) (query raw e : String),
       (∀ m t, llm m t = .text raw) → (∀ s, jp s = .error e) →
       routerProcess llm jp context query =
         format_response "Router" "Intent Classifier" "Intent classified"
           [("intent", .str "GENERAL"), ("confidence", .num (1 / 2)),
            ("entities", .obj []),
            ("reasoning", .str ("Failed to parse response: " ++ e))])
    ∧ (∀ (c : List (String × JVal)) (s : String),
        dictGet c "intent" = some (.str s) → valid_intents.contains s = true →
        validateClassification c = c)
    ∧ ∀ e, validateClassification (routerParseFailMeta e) = routerParseFailMeta e := by
  refine ⟨?_, ?_, ?_⟩
  · intro llm jp context query raw e hllm hjp
    simp only [routerProcess, hllm, hjp]
    rfl
  · intro c s hs hv
    unfold validateClassification
    rw [hs]
    have hcond : jvalInStrList ((some (JVal.str s)).getD .null) valid_intents = true := by
      simpa [jvalInStrList] using hv
    rw [if_pos hcond]
  · intro e
    rfl

/-- C6 (amended): with a Text Completion Service that returns the error
variant, every specialist that reaches its LLM call returns a well-formed
response whose content is that agent's fixed graceful apology and whose
metadata is exactly the singleton error map, and no exception propagates
(the functions are total).  The Account, Analytics, and CRM apologies are
personalized with the first name when known; the Transaction and
Financial Advisor apologies are fixed strings without the name. -/
theorem specialist_llm_error_graceful (llm : LLM) (emsg : String)
    (hllm : ∀ m t, llm m t = .error emsg)
    (context : Context) (query : String) (history : List Turn) :
    (context.accounts ≠ [] →
      accountProcess llm context query history =
        format_response "Account Specialist" "Account Information Expert"
          ((if firstNameOf (ctxFullName context) ≠ "" then
              "Hi " ++ firstNameOf (ctxFullName context) ++ "! " else "") ++
            "I can't access your accounts right now. Give me a moment and try again.")
          [("error", .str "llm_error")])
    ∧ (context.recent_transactions ≠ [] →
      transactionProcess llm context query history =
        format_response "Transaction Analyst" "Transaction & Spending Expert"
          "I'm having trouble pulling up your transactions. Try again in a moment."
          [("error", .str "llm_error")])
    ∧ (advisorProcess llm context query history =
        format_response "Financial Advisor" "Financial Planning & Eligibility Expert"
          "I'm having trouble accessing your financial data right now. Could you try again?"
          [("error", .str "llm_error")])
    ∧ (analyticsProcess llm context query history =
        format_response "Analytics Specialist" "Data Analysis & Insights Expert"
          ((if firstNameOf (ctxFullName context) ≠ "" then
              "Hi " ++ firstNameOf (ctxFullName context) ++ "! " else "") ++
            "I can't generate analytics right now. Try again in a moment.")
          [("error", .str "llm_error")])
    ∧ ∀ profile, context.profile = some profile →
      crmProcess llm context query history =
        format_response "CRM Specialist" "Customer Relationship & Profile Management Expert"
          ("I'm having trouble accessing your information right now" ++
            (if firstNameOf profile.full_name ≠ "" then ", " ++ firstNameOf profile.full_name
             else "") ++ ". Could you try again?")
          [("error", .str "llm_error")] := by
  refine ⟨?_, ?_, ?_, ?_, ?_⟩
  · intro hacc
    have h1 : context.accounts.isEmpty = false := by simpa using hacc
    simp only [accountProcess, h1, hllm, Bool.false_eq_true, if_false]
  · intro htx
    have h1 : context.recent_transactions.isEmpty = false := by simpa using htx
    simp only [transactionProcess, h1, hllm, Bool.false_eq_true, if_false]
  · simp only [advisorProcess, hllm]
  · simp only [analyticsProcess, hllm]
  · intro profile hp
    simp only [crmProcess, hp, hllm]

/-- C6 counterexample to the claim as stated: the Transaction Analyst and
the Financial Advisor do NOT personalize their LLM-failure apology with
the customer's first name even when it is known ("John" here), so "the
content is a fixed graceful apology (personalized with first name if
known)" fails for two of the five specialists. -/
theorem llm_error_apology_not_personalized :
    firstNameOf (ctxFullName johnCtx) = "John" ∧
    (transactionProcess alwaysErrLLM johnCtx "why" []).content =
      "I'm having trouble pulling up your transactions. Try again in a moment." ∧
    pyIn "John" ((transactionProcess alwaysErrLLM johnCtx "why" []).content) = false ∧
    pyIn "John" ((advisorProcess alwaysErrLLM johnCtx "why" []).content) = false := by
  refine ⟨rfl, rfl, ?_, ?_⟩ <;> decide

/-- Witness for C1 at a concrete ender query. -/
theorem ender_query_forces_general_witness :
    process_query { wDeps with router := stubRouter2 } [] "555" "thanks" none =
      process_query wDeps [] "555" "thanks" none :=
  (ender_query_forces_general wDeps stubRouter2 [] "555" "thanks" none
    (by decide) rfl).2

/-- Witness for C2 at a concrete 10-turn session. -/
theorem history_bounded_and_fifo_witness :
    ((convLookup (runQueries wDeps [("555", "hi", none)] []) "555").getD []).length ≤ 10 ∧
    ∃ t : Turn,
      convLookup (process_query wDeps wStore10 "555" "hi" none).1
          (resolveSessionId "555" none) =
        some (((convLookup wStore10 (resolveSessionId "555" none)).getD []).tail ++ [t]) :=
  ⟨history_bounded_and_fifo.1 wDeps [("555", "hi", none)] "555",
   history_bounded_and_fifo.2 wDeps wStore10 "555" "hi" none rfl rfl⟩

/-- Witness for C3 at a concrete continuation query on an empty session. -/
theorem followup_flag_iff_history_witness :
    ∃ env, (process_query wDeps [] "555" "yes please" none).2 = .success env ∧
      env.is_followup =
        !((convLookup ([] : ConvMap) (resolveSessionId "555" none)).getD []).isEmpty :=
  followup_flag_iff_history wDeps [] "555" "yes please" none rfl (by decide)
    (by decide) (by decide)

/-- Witness for C4 at a concrete continuation after an Account Specialist
turn. -/
theorem continuation_reuses_prior_specialist_witness :
    process_query { wDeps with router := stubRouter } wStoreAcc "555" "why" none =
      process_query wDeps wStoreAcc "555" "why" none :=
  (continuation_reuses_prior_specialist wDeps wStoreAcc "555" "why" none accTurn
    rfl rfl rfl (by decide)).2 stubRouter (fun _ => rfl)

/-- Witness for C5 at a concrete failing context fetch. -/
theorem context_error_short_circuits_witness :
    process_query wErrDeps [] "555" "hi" none =
      (if (convLookup [] (resolveSessionId "555" none)).isNone then
         convSet [] (resolveSessionId "555" none) []
       else [],
       .failure "user not found"
         "We were unable to access your account information. Please try logging in again.") :=
  (context_error_short_circuits wErrDeps stubRouter2 wAgents [] "555" "hi" none
    "user not found" rfl).1

/-- Witness for C6 (amended) at the Account Specialist with a known first
name. -/
theorem specialist_llm_error_graceful_witness :
    accountProcess alwaysErrLLM johnCtx "hi" [] =
      format_response "Account Specialist" "Account Information Expert"
        ((if firstNameOf (ctxFullName johnCtx) ≠ "" then
            "Hi " ++ firstNameOf (ctxFullName johnCtx) ++ "! " else "") ++
          "I can't access your accounts right now. Give me a moment and try again.")
        [("error", .str "llm_error")] :=
  (specialist_llm_error_graceful alwaysErrLLM "boom" (fun _ _ => rfl) johnCtx "hi" []).1
    (List.cons_ne_nil _ _)

/-- Witness for C7 at a concrete parse failure. -/
theorem classifier_coercion_and_validation_idem_witness :
    routerProcess constTextLLM failJsonParse ({} : Context) "hi" =
      format_response "Router" "Intent Classifier" "Intent classified"
        [("intent", .str "GENERAL"), ("confidence", .num (1 / 2)),
         ("entities", .obj []),
         ("reasoning", .str ("Failed to parse response: " ++ "Expecting value"))] :=
  classifier_coercion_and_validation_idem.1 constTextLLM failJsonParse {} "hi"
    "not json" "Expecting value" (fun _ _ => rfl) (fun _ => rfl)

/-- Witness for C8 at a concrete continuation turn. -/
theorem raw_query_dispatch_and_history_witness :
    process_query { wDeps with agents := wDeps.agents } wStoreAcc "555" "why" none =
      process_query wDeps wStoreAcc "555" "why" none :=
  (raw_query_dispatch_and_history wDeps wStoreAcc "555" "why" none rfl (by decide)).2
    wDeps.agents
    (List.forall₂_same.mpr (fun x _ => ⟨rfl, rfl, fun _ _ => rfl⟩))

/-- Witness for C9 at a concrete call through the real router. -/
theorem dispatch_fallback_unreachable_witness :
    jvalInStrList wEnv9.intent valid_intents = true ∧ wEnv9.agent_used ≠ "Fallback" :=
  dispatch_fallback_unreachable wDeps9 alwaysErrLLM failJsonParse
    (accountProcess alwaysErrLLM) (transactionProcess alwaysErrLLM)
    (advisorProcess alwaysErrLLM) (analyticsProcess alwaysErrLLM)
    (crmProcess alwaysErrLLM) rfl rfl [] "555" "hi" none wEnv9 rfl

/-- Witness for C10 at a concrete unseen session with a failing fetch. -/
theorem new_session_entry_despite_error_witness :
    convLookup (process_query wErrDeps [] "555" "hi" none).1
      (resolveSessionId "555" none) = some [] ∧
    (process_query wErrDeps [] "555" "hi" none).2 =
      .failure "user not found"
        "We were unable to access your account information. Please try logging in again." :=
  new_session_entry_despite_error wErrDeps [] "555" "hi" none "user not found" rfl rfl
